import Mathlib

/-!
# dselect access-method handling (`dselect/method.cc`)

A shallow embedding of `method.cc`: the method lock, the catalog load, the
subprocess protocol and the five request operations.  Process-wide statics
become fields of `State`; everything the file reaches through other
translation units or the operating system (discovery, `open`, `fcntl`, the
menu, the child's wait status, the bytes on standard input) is an oracle of
`Env`, indexed by a clock that advances at every query, so that the same
query may answer differently later in the same process.
-/

namespace Dselect

/-- Modelled from the spec: the result of a request operation, `enum
urqresult` of `dselect.h`; `method.cc` returns only the first two values. -/
inductive urqresult where
  | urqr_normal
  | urqr_fail
  | urqr_quitmenu
  deriving DecidableEq, Repr

/-- Modelled from the spec: the termination reason of the selection menu,
`enum quitaction` of `dselect.h`; `qa_quitchecksave` is accept-and-save. -/
inductive quitaction where
  | qa_noquit
  | qa_quitchecksave
  | qa_quitnochecksave
  deriving DecidableEq, Repr

/-- An access method (`struct method`): `path` is the C string held in the
path buffer and `pathinmeth` is the offset in that buffer at which the
script name is written. -/
structure method where
  name : String
  path : List Char
  pathinmeth : Nat
  deriving DecidableEq, Repr

/-- A selectable option of a method (`struct dselect_option`). -/
structure dselect_option where
  name : String
  meth : method
  deriving DecidableEq, Repr

/-- A program invocation (`struct command`): file name, label, arguments. -/
structure command where
  filename : List Char
  name : String
  argv : List String
  deriving DecidableEq, Repr

/-- The two functions that `method.cc` ever has on the cleanup stack. -/
inductive cleanupfn where
  | cu_unlockmethod
  | subproc_signals_cleanup
  deriving DecidableEq, Repr

/-- One entry of the cleanup stack: the two call slots of `push_cleanup`,
each a function (or null) with its flag mask. -/
structure cleanupentry where
  call1 : Option cleanupfn
  mask1 : Nat
  call2 : Option cleanupfn
  mask2 : Nat
  deriving DecidableEq, Repr

/-- What the process does that an observer can see, in order. -/
inductive Event where
  | cursesOn
  | cursesOff
  | sthfailedMsg (buf : String)
  | getch
  | discovery (dir : String)
  | openLockFile (path : String)
  | lockAttempt (fd : Int)
  | unlockAttempt (fd : Int)
  | resolveSelection
  | menu
  | signalsSetup (name : String)
  | signalsCleanup
  | spawn (cmd : command)
  | sleep (secs : Nat)
  | stdoutText (text : String)
  | stderrText (text : String)
  | flushStderr
  | persistSelection (o : dselect_option)
  deriving DecidableEq, Repr

/-- Result of `open`: a descriptor, or `-1` with `errno` set. -/
structure OpenResult where
  fd : Int
  errno : Int
  deriving DecidableEq, Repr

/-- Result of a `fcntl(F_SETLK)`: the return value and `errno`. -/
structure FcntlResult where
  ret : Int
  errno : Int
  deriving DecidableEq, Repr

/-- Result of one `fgetc(stdin)`: the value returned and `errno` after it. -/
structure ReadResult where
  c : Int
  errno : Int
  deriving DecidableEq, Repr

/-- Compile-time constants of headers outside this file, the wait-status
macros of `<sys/wait.h>`, and the collaborators, each answering by clock. -/
structure Env where
  admindir : String
  DSELECT : String
  LIBDIR : String
  LOCALLIBDIR : String
  METHODSDIR : String
  METHLOCKFILE : String
  METHODUPDATESCRIPT : String
  METHODINSTALLSCRIPT : String
  METHODSETUPSCRIPT : String
  DPKG : String
  EPERM : Int
  EACCES : Int
  EWOULDBLOCK : Int
  EAGAIN : Int
  EINTR : Int
  SIGINT : Int
  WIFEXITED : Int → Bool
  WEXITSTATUS : Int → Int
  WIFSIGNALED : Int → Bool
  WTERMSIG : Int → Int
  WCOREDUMP : Int → Bool
  strsignal : Int → String
  readmethods : Nat → String → List dselect_option → Int → List dselect_option × Int
  sysOpen : Nat → String → OpenResult
  fcntlLock : Nat → Int → FcntlResult
  fcntlUnlock : Nat → Int → FcntlResult
  getcurrentopt : Nat → List dselect_option → Option dselect_option
  display : Nat → List dselect_option → Option dselect_option → quitaction × Option dselect_option
  subprocStatus : Nat → command → Int

/-- The statics of `method.cc` and of the units it shares globals with,
the cleanup stack, the lock as the kernel sees it, the unread input, the
clock of the oracles and the trace of observable events. -/
structure State where
  methodlockfile : Option String
  methlockfd : Int
  options : List dselect_option
  noptions : Int
  coption : Option dselect_option
  cleanups : List cleanupentry
  lockHeld : Bool
  stdin : List ReadResult
  clock : Nat
  trace : List Event
  deriving DecidableEq, Repr

/-- The state of a process that has not yet called into `method.cc`. -/
def State.initial (input : List ReadResult) : State :=
  { methodlockfile := none, methlockfd := -1, options := [], noptions := 0,
    coption := none, cleanups := [], lockHeld := false, stdin := input,
    clock := 0, trace := [] }

/-- Ways in which a call does not return to its caller. -/
inductive Halt where
  | ohshite (msg : String) (s : State)
  | assertFailed (expr : String) (s : State)
  | nullDeref (s : State)
  | inputExhausted (s : State)
  deriving DecidableEq, Repr

/-- A call either returns a value and the state it leaves, or halts. -/
abbrev Res (α : Type) := Except Halt (α × State)

/-- Append an event to the trace. -/
def State.emit (s : State) (e : Event) : State :=
  { s with trace := s.trace ++ [e] }

/-- Advance the oracle clock. -/
def State.tick (s : State) : State :=
  { s with clock := s.clock + 1 }

/-- The `sthfailed` of the source: switch curses on, show the reason and wait
for a key. -/
def sthfailed (env : Env) (reasoning : String) (s : State) : State :=
  ((s.emit Event.cursesOn).emit
    (Event.sthfailedMsg ("\n\n" ++ env.DSELECT ++ ": " ++ reasoning ++ "\n"))).emit Event.getch

/-- The `cu_unlockmethod` of the source: two assertions, then the unlock. -/
def cu_unlockmethod (env : Env) (s : State) : Res Unit :=
  if s.methodlockfile.isNone then .error (Halt.assertFailed "methodlockfile" s)
  else if s.methlockfd = 0 then .error (Halt.assertFailed "methlockfd" s)
  else
    let r := env.fcntlUnlock s.clock s.methlockfd
    let s1 := (s.emit (Event.unlockAttempt s.methlockfd)).tick
    if r.ret = -1 then .ok ((), sthfailed env "unable to unlock access method area" s1)
    else .ok ((), { s1 with lockHeld := false })

/-- The `methoddirectories` table of the source. -/
def methoddirectories (env : Env) : List String :=
  [env.LIBDIR ++ "/" ++ env.METHODSDIR, env.LOCALLIBDIR ++ "/" ++ env.METHODSDIR]

/-- The `for` loop of `ensureoptions` over the directory table. -/
def readAll (env : Env) : List String → List dselect_option × Int × State →
    List dselect_option × Int × State
  | [], acc => acc
  | d :: ds, (newoptions, nread, s) =>
    let r := env.readmethods s.clock d newoptions nread
    readAll env ds (r.1, r.2, (s.emit (Event.discovery d)).tick)

/-- The `ensureoptions` of the source. -/
def ensureoptions (env : Env) (s : State) : urqresult × State :=
  if s.options = [] then
    let r := readAll env (methoddirectories env) ([], 0, s)
    if r.1 = [] then
      (urqresult.urqr_fail, sthfailed env "no access methods are available" r.2.2)
    else
      (urqresult.urqr_normal, { r.2.2 with options := r.1, noptions := r.2.1 })
  else (urqresult.urqr_normal, s)

/-- All bits set in a 32-bit `int`: the `~0` passed to `push_cleanup`. -/
def allBits : Nat := 2 ^ 32 - 1

/-- Modelled from the spec: the flag `ehflag_normaltidy` of `dpkg.h`, the
flag set of a scope that ends normally; an action registered under the
all-ones mask runs under it. -/
def ehflag_normaltidy : Nat := 1

/-- Modelled from the spec: `push_cleanup` of the error-handling library
registers an entry with two call slots on top of the cleanup stack. -/
def push_cleanup (call1 : Option cleanupfn) (mask1 : Nat) (call2 : Option cleanupfn)
    (mask2 : Nat) (s : State) : State :=
  { s with cleanups := { call1 := call1, mask1 := mask1, call2 := call2, mask2 := mask2 }
      :: s.cleanups }

/-- Run one cleanup function. -/
def runCleanup (env : Env) : cleanupfn → State → Res Unit
  | cleanupfn.cu_unlockmethod, s => cu_unlockmethod env s
  | cleanupfn.subproc_signals_cleanup, s => .ok ((), s.emit Event.signalsCleanup)

/-- Run a call slot of a cleanup entry when it is set and its mask meets
the flag set. -/
def runSlot (env : Env) (call : Option cleanupfn) (mask flagset : Nat) (s : State) :
    Res Unit :=
  match call with
  | none => .ok ((), s)
  | some f => if Nat.land mask flagset ≠ 0 then runCleanup env f s else .ok ((), s)

/-- Modelled from the spec: `pop_cleanup` of the error-handling library
removes the top entry of the cleanup stack and runs those of its calls
whose mask meets the flag set. -/
def pop_cleanup (env : Env) (flagset : Nat) (s : State) : Res Unit :=
  match s.cleanups with
  | [] => .error (Halt.nullDeref s)
  | cep :: rest =>
    match runSlot env cep.call1 cep.mask1 flagset { s with cleanups := rest } with
    | .error h => .error h
    | .ok (_, s1) => runSlot env cep.call2 cep.mask2 flagset s1

/-- The second half of `lockmethod`: the `fcntl` write lock on the open
descriptor and the registration of the release action. -/
def lockmethodSetlk (env : Env) (s : State) : urqresult × State :=
  let l := env.fcntlLock s.clock s.methlockfd
  let s1 := (s.emit (Event.lockAttempt s.methlockfd)).tick
  if l.ret = -1 then
    if l.errno = env.EWOULDBLOCK ∨ l.errno = env.EAGAIN then
      (urqresult.urqr_fail, sthfailed env "the access method area is already locked" s1)
    else
      (urqresult.urqr_fail, sthfailed env "unable to lock access method area" s1)
  else
    (urqresult.urqr_normal,
      push_cleanup (some cleanupfn.cu_unlockmethod) allBits none 0
        { s1 with lockHeld := true })

/-- The `lockmethod` of the source: compute the path once, open the file
once, then lock it. -/
def lockmethod (env : Env) (s : State) : urqresult × State :=
  let s1 : State :=
    if s.methodlockfile.isNone then
      { s with methodlockfile := some (env.admindir ++ "/" ++ env.METHLOCKFILE) }
    else s
  let path := s1.methodlockfile.getD ""
  if s1.methlockfd = -1 then
    let r := env.sysOpen s1.clock path
    let s2 := ({ s1 with methlockfd := r.fd }.emit (Event.openLockFile path)).tick
    if s2.methlockfd = -1 then
      if r.errno = env.EPERM ∨ r.errno = env.EACCES then
        (urqresult.urqr_fail,
          sthfailed env "requested operation requires superuser privilege" s2)
      else
        (urqresult.urqr_fail,
          sthfailed env "unable to open/create access method lockfile" s2)
    else lockmethodSetlk env s2
  else lockmethodSetlk env s1

/-- The value `ERR` of `curses.h`. -/
def ERR : Int := -1

/-- The value `EOF` of `stdio.h`. -/
def EOF : Int := -1

/-- The character code of a newline. -/
def newline : Int := 10

/-- The `do ... while` of `falliblesubprocess` that reads the
acknowledgement: the last value read and the input left, or `none` when the
given input ends before the loop does. -/
def ackLoop (env : Env) : List ReadResult → Option (ReadResult × List ReadResult)
  | [] => none
  | r :: rest =>
    if (r.c = ERR ∧ r.errno = env.EINTR) ∨ (r.c ≠ newline ∧ r.c ≠ EOF) then
      ackLoop env rest
    else some (r, rest)

/-- The text that `falliblesubprocess` writes on standard error for a status
that is not a clean exit, one entry for each `fprintf`. -/
def diagnostic (env : Env) (name : String) (status : Int) : List String :=
  ["\n" ++ name ++ " "] ++
  (if env.WIFEXITED status then
    ["returned error exit status " ++ toString (env.WEXITSTATUS status) ++ ".\n"]
  else if env.WIFSIGNALED status then
    (if env.WTERMSIG status = env.SIGINT then ["was interrupted.\n"]
     else ["was terminated by a signal: " ++ env.strsignal (env.WTERMSIG status) ++ ".\n"])
    ++ (if env.WCOREDUMP status then ["(It left a coredump.)\n"] else [])
  else
    ["failed with an unknown wait return code " ++ toString status ++ ".\n"]) ++
  ["Press <enter> to continue.\n"]

/-- Write the given texts on standard error, in order. -/
def writeStderr (texts : List String) (s : State) : State :=
  { s with trace := s.trace ++ texts.map Event.stderrText }

/-- Modelled from the spec: `subproc_signals_setup` of the subprocess
library installs the signal posture for running a child and pushes the
cleanup that restores it. -/
def subproc_signals_setup (name : String) (s : State) : State :=
  push_cleanup (some cleanupfn.subproc_signals_cleanup) allBits none 0
    (s.emit (Event.signalsSetup name))

/-- Modelled from the spec: `subproc_fork`, `command_exec` in the child and
`subproc_wait` in the parent: the command is spawned once and the parent
blocks until it has the child's wait status. -/
def spawnAndWait (env : Env) (cmd : command) (s : State) : Int × State :=
  (env.subprocStatus s.clock cmd, (s.emit (Event.spawn cmd)).tick)

/-- The `falliblesubprocess` of the source. -/
def falliblesubprocess (env : Env) (cmd : command) (s : State) : Res urqresult :=
  let s1 := subproc_signals_setup cmd.name (s.emit Event.cursesOff)
  let w := spawnAndWait env cmd s1
  let status := w.1
  match pop_cleanup env ehflag_normaltidy w.2 with
  | .error h => .error h
  | .ok (_, s2) =>
    if env.WIFEXITED status ∧ env.WEXITSTATUS status = 0 then
      .ok (urqresult.urqr_normal, s2.emit (Event.sleep 1))
    else
      let s3 := (writeStderr (diagnostic env cmd.name status) s2).emit Event.flushStderr
      match ackLoop env s3.stdin with
      | none => .error (Halt.inputExhausted { s3 with stdin := [] })
      | some (r, rest) =>
        let s4 := { s3 with stdin := rest }
        if r.c = ERR ∨ r.c = EOF then
          .error (Halt.ohshite "error reading acknowledgement of program failure message" s4)
        else .ok (urqresult.urqr_fail, s4)

/-- The C string left in a buffer holding the string `buf` after
`strcpy(buf + off, src)`; a write past the terminator leaves it as it was. -/
def strcpyAt (buf : List Char) (off : Nat) (src : List Char) : List Char :=
  if off ≤ buf.length then buf.take off ++ src else buf

/-- Modelled from the spec: `command_init` of the command library starts a
command with a file name, a label and no arguments. -/
def command_init (filename : List Char) (name : String) : command :=
  { filename := filename, name := name, argv := [] }

/-- Modelled from the spec: `command_add_args` of the command library
appends the arguments in order. -/
def command_add_args (cmd : command) (args : List String) : command :=
  { cmd with argv := cmd.argv ++ args }

/-- Modelled from the spec: `getcurrentopt` re-resolves the current
selection from the persisted state against the catalog. -/
def getcurrentopt (env : Env) (s : State) : State :=
  ({ s with coption := env.getcurrentopt s.clock s.options }.emit Event.resolveSelection).tick

/-- Modelled from the spec: `writecurrentopt` persists the current
selection. -/
def writecurrentopt (s : State) : State :=
  match s.coption with
  | some o => s.emit (Event.persistSelection o)
  | none => s

/-- Modelled from the spec: the selection menu (`methodlist::display`)
returns a termination reason and may change the current selection. -/
def display (env : Env) (s : State) : quitaction × State :=
  let r := env.display s.clock s.options s.coption
  (r.1, ({ s with coption := r.2 }.emit Event.menu).tick)

/-- Write the script name at the path-in-method position of the selected
option's method, and build the command for it.  Options are held by value,
so the write shows in the option returned, which becomes the current
selection, and not in the catalog's copy of the same method. -/
def scriptCommand (env : Env) (o : dselect_option) (exepath name : String) :
    dselect_option × command :=
  let m : method := { o.meth with path := strcpyAt o.meth.path o.meth.pathinmeth exepath.toList }
  ({ o with meth := m },
    command_add_args (command_init m.path name) [exepath, env.admindir, m.name, o.name])

/-- Pop the top cleanup and return `ur`. -/
def popAndReturn (env : Env) (ur : urqresult) (s : State) : Res urqresult :=
  match pop_cleanup env ehflag_normaltidy s with
  | .error h => .error h
  | .ok (_, s1) => .ok (ur, s1)

/-- The `runscript` of the source. -/
def runscript (env : Env) (exepath name : String) (s : State) : Res urqresult :=
  let e := ensureoptions env s
  if e.1 ≠ urqresult.urqr_normal then .ok e
  else
    let l := lockmethod env e.2
    if l.1 ≠ urqresult.urqr_normal then .ok l
    else
      let s1 := getcurrentopt env l.2
      match s1.coption with
      | some o =>
        let oc := scriptCommand env o exepath name
        match falliblesubprocess env oc.2 { s1 with coption := some oc.1 } with
        | .error h => .error h
        | .ok (ur, s2) => popAndReturn env ur s2
      | none =>
        popAndReturn env urqresult.urqr_fail
          (sthfailed env "no access method is selected/configured" s1)

/-- The `urq_update` of the source. -/
def urq_update (env : Env) (s : State) : Res urqresult :=
  runscript env env.METHODUPDATESCRIPT "update available list script" s

/-- The `urq_install` of the source. -/
def urq_install (env : Env) (s : State) : Res urqresult :=
  runscript env env.METHODINSTALLSCRIPT "installation script" s

/-- The command that `rundpkgauto` builds. -/
def dpkgCommand (env : Env) (name dpkgmode : String) : command :=
  command_add_args (command_init env.DPKG.toList name)
    [env.DPKG, "--admindir", env.admindir, "--pending", dpkgmode]

/-- The `rundpkgauto` of the source. -/
def rundpkgauto (env : Env) (name dpkgmode : String) (s : State) : Res urqresult :=
  let s1 := (s.emit Event.cursesOff).emit
    (Event.stdoutText ("running dpkg --pending " ++ dpkgmode ++ " ...\n"))
  falliblesubprocess env (dpkgCommand env name dpkgmode) s1

/-- The `urq_remove` of the source. -/
def urq_remove (env : Env) (s : State) : Res urqresult :=
  rundpkgauto env "dpkg --remove" "--remove" s

/-- The `urq_config` of the source. -/
def urq_config (env : Env) (s : State) : Res urqresult :=
  rundpkgauto env "dpkg --configure" "--configure" s

/-- The `urq_setup` of the source. -/
def urq_setup (env : Env) (s : State) : Res urqresult :=
  let e := ensureoptions env s
  if e.1 ≠ urqresult.urqr_normal then .ok e
  else
    let l := lockmethod env e.2
    if l.1 ≠ urqresult.urqr_normal then .ok l
    else
      let s1 := getcurrentopt env l.2
      let d := display env (s1.emit Event.cursesOn)
      if d.1 = quitaction.qa_quitchecksave then
        match d.2.coption with
        | none => .error (Halt.nullDeref d.2)
        | some o =>
          let oc := scriptCommand env o env.METHODSETUPSCRIPT "query/setup script"
          match falliblesubprocess env oc.2 { d.2 with coption := some oc.1 } with
          | .error h => .error h
          | .ok (ur, s2) =>
            popAndReturn env ur
              (if ur = urqresult.urqr_normal then writecurrentopt s2 else s2)
      else popAndReturn env urqresult.urqr_fail d.2

/-- The value returned by a call, when it returns. -/
def Res.value {α : Type} : Res α → Option α
  | .ok (a, _) => some a
  | .error _ => none

/-- Whether a call ended the whole process through `ohshite`. -/
def Res.isFatal {α : Type} : Res α → Bool
  | .error (Halt.ohshite _ _) => true
  | _ => false

/-- The expression of the assertion in which a call ended, if it did. -/
def Res.failedAssertion {α : Type} : Res α → Option String
  | .error (Halt.assertFailed e _) => some e
  | _ => none

/-- The state in which a halted call stopped. -/
def Halt.state : Halt → State
  | Halt.ohshite _ s => s
  | Halt.assertFailed _ s => s
  | Halt.nullDeref s => s
  | Halt.inputExhausted s => s

/-- The state in which a call ended, whether it returned or halted. -/
def Res.final {α : Type} : Res α → State
  | .ok (_, s) => s
  | .error h => h.state

/-- The wait-status macros of the GNU C library, on a 32-bit `int`. -/
def glibcWIFEXITED (status : Int) : Bool := status % 128 = 0

/-- The macro `WEXITSTATUS` of the GNU C library. -/
def glibcWEXITSTATUS (status : Int) : Int := (status % 65536) / 256

/-- The macro `WTERMSIG` of the GNU C library. -/
def glibcWTERMSIG (status : Int) : Int := status % 128

/-- The macro `WIFSIGNALED` of the GNU C library:
`((signed char) ((status & 0x7f) + 1) >> 1) > 0`. -/
def glibcWIFSIGNALED (status : Int) : Bool :=
  let t := status % 128 + 1
  let sc := if t ≥ 128 then t - 256 else t
  sc / 2 > 0

/-- The macro `WCOREDUMP` of the GNU C library. -/
def glibcWCOREDUMP (status : Int) : Bool := status % 256 ≥ 128

/-- A concrete run of the collaborators, to evaluate the operations on. -/
structure Scenario where
  found : Nat → List dselect_option
  opened : OpenResult
  locked : FcntlResult
  unlocked : FcntlResult
  selection : Option dselect_option
  menu : quitaction × Option dselect_option
  status : Int

/-- The environment of a scenario: Linux values for the constants, the GNU
C library for the wait-status macros, the answers of the scenario for the
collaborators. -/
def Scenario.env (sc : Scenario) : Env :=
  { admindir := "/var/lib/dpkg", DSELECT := "dselect", LIBDIR := "/usr/lib/dpkg",
    LOCALLIBDIR := "/usr/local/lib/dpkg", METHODSDIR := "methods",
    METHLOCKFILE := "methlock", METHODUPDATESCRIPT := "update",
    METHODINSTALLSCRIPT := "install", METHODSETUPSCRIPT := "setup", DPKG := "dpkg",
    EPERM := 1, EACCES := 13, EWOULDBLOCK := 11, EAGAIN := 11, EINTR := 4, SIGINT := 2,
    WIFEXITED := glibcWIFEXITED, WEXITSTATUS := glibcWEXITSTATUS,
    WIFSIGNALED := glibcWIFSIGNALED, WTERMSIG := glibcWTERMSIG,
    WCOREDUMP := glibcWCOREDUMP,
    strsignal := fun i => "signal " ++ toString i,
    readmethods := fun t _ acc n => (acc ++ sc.found t, n + (sc.found t).length),
    sysOpen := fun _ _ => sc.opened,
    fcntlLock := fun _ _ => sc.locked,
    fcntlUnlock := fun _ _ => sc.unlocked,
    getcurrentopt := fun _ _ => sc.selection,
    display := fun _ _ _ => sc.menu,
    subprocStatus := fun _ _ => sc.status }

/-- A method with one option, as discovery would deliver it. -/
def myoption : dselect_option :=
  { name := "myoption",
    meth := { name := "mymethod", path := "/usr/lib/dpkg/methods/mymethod/".toList,
              pathinmeth := 31 } }

/-- The scenario in which everything succeeds and the child exits with the
given wait status. -/
def happy (status : Int) : Scenario :=
  { found := fun t => if t = 0 then [myoption] else [],
    opened := { fd := 3, errno := 0 },
    locked := { ret := 0, errno := 0 },
    unlocked := { ret := 0, errno := 0 },
    selection := some myoption,
    menu := (quitaction.qa_quitchecksave, some myoption),
    status := status }

/-- A line of input: the characters `x` and a newline. -/
def enterLine : List ReadResult := [{ c := 120, errno := 0 }, { c := 10, errno := 0 }]

/-- The reads that the acknowledgement loop passes over: anything but a
newline, an end-of-file value only with `errno` at `EINTR`. -/
def Skipped (env : Env) (x : ReadResult) : Prop :=
  x.c ≠ newline ∧ (x.c = EOF → x.errno = env.EINTR)

instance (env : Env) (x : ReadResult) : Decidable (Skipped env x) := by
  unfold Skipped
  infer_instance

/-- The trace of a subprocess run up to the classification of the status. -/
def runTrace (cmd : command) : List Event :=
  [Event.cursesOff, Event.signalsSetup cmd.name, Event.spawn cmd, Event.signalsCleanup]

/-- The state in which `falliblesubprocess` classifies the wait status. -/
def afterWait (cmd : command) (s : State) : State :=
  { s with clock := s.clock + 1, trace := s.trace ++ runTrace cmd }

/-- The state after the diagnostic has been written and flushed. -/
def afterDiagnostic (env : Env) (cmd : command) (s : State) : State :=
  { s with clock := s.clock + 1,
           trace := s.trace ++ runTrace cmd ++
             (diagnostic env cmd.name (env.subprocStatus s.clock cmd)).map Event.stderrText ++
             [Event.flushStderr] }

/-- The commands spawned in a trace, in order. -/
def spawned (t : List Event) : List command :=
  t.filterMap fun e => match e with
    | Event.spawn c => some c
    | _ => none

/-- The directories on which discovery ran in a trace, in order. -/
def discovered (t : List Event) : List String :=
  t.filterMap fun e => match e with
    | Event.discovery d => some d
    | _ => none

/-- The number of causes reported to the operator in a trace: `sthfailed`
messages and texts on standard error. -/
def reports (t : List Event) : Nat :=
  t.countP fun e => match e with
    | Event.sthfailedMsg _ => true
    | Event.stderrText _ => true
    | _ => false

/-- The number of times the release action reached its unlock in a trace. -/
def unlocks (t : List Event) : Nat :=
  t.countP fun e => match e with
    | Event.unlockAttempt _ => true
    | _ => false

/-- The number of lock attempts in a trace. -/
def lockAttempts (t : List Event) : Nat :=
  t.countP fun e => match e with
    | Event.lockAttempt _ => true
    | _ => false

/-- The number of times the selection menu was presented in a trace. -/
def menus (t : List Event) : Nat :=
  t.countP fun e => match e with
    | Event.menu => true
    | _ => false

/-- The selections persisted in a trace, in order. -/
def persisted (t : List Event) : List dselect_option :=
  t.filterMap fun e => match e with
    | Event.persistSelection o => some o
    | _ => none

/-- The scenario in which discovery finds nothing during the first catalog
load and finds the example option afterwards. -/
def lateDiscovery : Scenario :=
  { happy 0 with found := fun t => if t = 2 then [myoption] else [] }

/-- The scenario in which `open` hands out descriptor 0 for the lock file. -/
def descriptorZero : Scenario :=
  { happy 0 with opened := { fd := 0, errno := 0 } }

/-- Input at end-of-stream: `fgetc` returns `EOF`, `errno` is 0. -/
def endOfStream : List ReadResult := [{ c := EOF, errno := 0 }]

/-- What it is for a call that ended as `r` from state `s` to have run the
command `cmd` and nothing else: `cmd` is the one command spawned, the wait
status was the one oracle query, the value returned is the one the
subprocess protocol gives for the status, and the lock path, the lock
descriptor, the lock, the catalog, its count and the current selection are
as before, with no discovery, no lock attempt and no unlock. -/
def RunsOnly (env : Env) (s : State) (r : Res urqresult) (cmd : command) : Prop :=
  spawned r.final.trace = spawned s.trace ++ [cmd] ∧
  ((env.WIFEXITED (env.subprocStatus s.clock cmd) = true ∧
      env.WEXITSTATUS (env.subprocStatus s.clock cmd) = 0) →
    r.value = some urqresult.urqr_normal) ∧
  (¬ (env.WIFEXITED (env.subprocStatus s.clock cmd) = true ∧
      env.WEXITSTATUS (env.subprocStatus s.clock cmd) = 0) →
    ∀ (pre rest : List ReadResult) (e : Int),
      s.stdin = pre ++ { c := newline, errno := e } :: rest →
      (∀ x ∈ pre, Skipped env x) → r.value = some urqresult.urqr_fail) ∧
  r.final.methodlockfile = s.methodlockfile ∧
  r.final.methlockfd = s.methlockfd ∧
  r.final.lockHeld = s.lockHeld ∧
  r.final.options = s.options ∧
  r.final.noptions = s.noptions ∧
  r.final.coption = s.coption ∧
  r.final.clock = s.clock + 1 ∧
  lockAttempts r.final.trace = lockAttempts s.trace ∧
  unlocks r.final.trace = unlocks s.trace ∧
  discovered r.final.trace = discovered s.trace

/-- The cleanup entry that `lockmethod` registers. -/
def releaseEntry : cleanupentry :=
  { call1 := some cleanupfn.cu_unlockmethod, mask1 := allBits, call2 := none, mask2 := 0 }

/-- The state that the release action leaves when it is popped in `s` with
`rest` below it on the cleanup stack and its assertions hold. -/
def released (env : Env) (s : State) (rest : List cleanupentry) : State :=
  if (env.fcntlUnlock s.clock s.methlockfd).ret = -1 then
    sthfailed env "unable to unlock access method area"
      ({ s with cleanups := rest }.emit (Event.unlockAttempt s.methlockfd)).tick
  else
    { ({ s with cleanups := rest }.emit (Event.unlockAttempt s.methlockfd)).tick
      with lockHeld := false }

/-- The state of `lockmethod` once the lock-file path is computed. -/
def withLockPath (env : Env) (s : State) : State :=
  if s.methodlockfile.isNone then
    { s with methodlockfile := some (env.admindir ++ "/" ++ env.METHLOCKFILE) }
  else s

/-- The state of `lockmethod` after a call of `open` on the lock file. -/
def afterOpen (env : Env) (s : State) : State :=
  ({ withLockPath env s with
      methlockfd := (env.sysOpen s.clock ((withLockPath env s).methodlockfile.getD "")).fd }.emit
    (Event.openLockFile ((withLockPath env s).methodlockfile.getD ""))).tick

/-- The state of an operation after `ensureoptions` and `lockmethod`. -/
def locked (env : Env) (s : State) : State :=
  (lockmethod env (ensureoptions env s).2).2

/-- The state of an operation after `getcurrentopt`. -/
def resolved (env : Env) (s : State) : State :=
  getcurrentopt env (locked env s)

/-- The termination reason of the menu in `urq_setup`, and the state it
leaves. -/
def setupMenu (env : Env) (s : State) : quitaction × State :=
  display env ((resolved env s).emit Event.cursesOn)

/-- The state `sx` is inside the critical section of an operation started in
`s`: the release action is on top of the cleanup stack as the operation
found it, the lock-file path is computed, no unlock has happened and no
report has been lost since `s`, and the lock is held. -/
def Inside (s sx : State) : Prop :=
  sx.cleanups = releaseEntry :: s.cleanups ∧
  sx.methodlockfile.isSome = true ∧
  unlocks sx.trace = unlocks s.trace ∧
  reports s.trace ≤ reports sx.trace ∧
  sx.lockHeld = true

/-- The events of an unlock that failed: the attempt on descriptor `fd` and
the `sthfailed` message that reports the failure. -/
def failedUnlock (env : Env) (fd : Int) : List Event :=
  [Event.unlockAttempt fd, Event.cursesOn,
   Event.sthfailedMsg
     ("\n\n" ++ env.DSELECT ++ ": " ++ "unable to unlock access method area" ++ "\n"),
   Event.getch]

/-- Between `s` and `s1` the release action ran exactly once and the cleanup
stack is back as it was.  When the unlock, the last query made, did not
fail, the lock is free and the attempt is the last event; when it failed,
the lock is still held and the last events are the attempt and the
`sthfailed` message that reports the failure. -/
def ReleasedOnce (env : Env) (s s1 : State) : Prop :=
  unlocks s1.trace = unlocks s.trace + 1 ∧
  s1.cleanups = s.cleanups ∧
  ((env.fcntlUnlock (s1.clock - 1) s1.methlockfd).ret ≠ -1 →
    s1.lockHeld = false ∧
    ∃ t, s1.trace = t ++ [Event.unlockAttempt s1.methlockfd]) ∧
  ((env.fcntlUnlock (s1.clock - 1) s1.methlockfd).ret = -1 →
    s1.lockHeld = true ∧
    ∃ t, s1.trace = t ++ failedUnlock env s1.methlockfd)

/-- The scenario in which everything succeeds except the unlock, which
fails with `ENOLCK`. -/
def unlockFails : Scenario :=
  { happy 0 with unlocked := { ret := -1, errno := 37 } }

/-- The scenario in which the operator leaves the menu without accepting. -/
def menuDeclined : Scenario :=
  { happy 0 with menu := (quitaction.qa_quitnochecksave, some myoption) }

/-- The scenario in which no current selection exists. -/
def noSelection : Scenario :=
  { happy 0 with selection := none }

/-- Descriptor 0 for the lock file and no current selection. -/
def descriptorZeroNoSelection : Scenario :=
  { descriptorZero with selection := none }

/-- Descriptor 0 for the lock file and a menu that is not accepted. -/
def descriptorZeroDeclined : Scenario :=
  { descriptorZero with menu := (quitaction.qa_quitnochecksave, some myoption) }

/-! ## Lemmas on the subprocess protocol -/

theorem land_allBits_normaltidy : Nat.land allBits ehflag_normaltidy ≠ 0 := by
  decide

theorem falliblesubprocess_unfold (env : Env) (cmd : command) (s : State) :
    falliblesubprocess env cmd s =
      if env.WIFEXITED (env.subprocStatus s.clock cmd) = true ∧
          env.WEXITSTATUS (env.subprocStatus s.clock cmd) = 0 then
        .ok (urqresult.urqr_normal, (afterWait cmd s).emit (Event.sleep 1))
      else
        match ackLoop env s.stdin with
        | none => .error (Halt.inputExhausted { afterDiagnostic env cmd s with stdin := [] })
        | some (r, rest) =>
          if r.c = ERR ∨ r.c = EOF then
            .error (Halt.ohshite "error reading acknowledgement of program failure message"
              { afterDiagnostic env cmd s with stdin := rest })
          else .ok (urqresult.urqr_fail, { afterDiagnostic env cmd s with stdin := rest }) := by
  have h := land_allBits_normaltidy
  simp only [falliblesubprocess, subproc_signals_setup, push_cleanup, spawnAndWait,
    pop_cleanup, runSlot, runCleanup, State.emit, State.tick, afterWait, afterDiagnostic,
    runTrace, writeStderr, h, ne_eq, not_false_eq_true, if_true]
  split
  · simp
  · simp

theorem ackLoop_skip (env : Env) (pre tail : List ReadResult)
    (hpre : ∀ x ∈ pre, Skipped env x) : ackLoop env (pre ++ tail) = ackLoop env tail := by
  induction pre with
  | nil => rfl
  | cons x xs ih =>
    have hx : Skipped env x := hpre x (List.mem_cons_self x xs)
    have hxs : ∀ y ∈ xs, Skipped env y := fun y hy => hpre y (List.mem_cons_of_mem x hy)
    have hcont : (x.c = ERR ∧ x.errno = env.EINTR) ∨ (x.c ≠ newline ∧ x.c ≠ EOF) := by
      by_cases hc : x.c = EOF
      · exact Or.inl ⟨hc, hx.2 hc⟩
      · exact Or.inr ⟨hx.1, hc⟩
    simp only [List.cons_append, ackLoop, hcont, if_true]
    exact ih hxs

theorem ackLoop_newline (env : Env) (pre rest : List ReadResult) (e : Int)
    (hpre : ∀ x ∈ pre, Skipped env x) :
    ackLoop env (pre ++ { c := newline, errno := e } :: rest)
      = some ({ c := newline, errno := e }, rest) := by
  rw [ackLoop_skip env pre _ hpre]
  simp [ackLoop, newline, ERR, EOF]

theorem ackLoop_stop (env : Env) (pre rest : List ReadResult) (e : Int)
    (hpre : ∀ x ∈ pre, Skipped env x) (he : e ≠ env.EINTR) :
    ackLoop env (pre ++ { c := EOF, errno := e } :: rest)
      = some ({ c := EOF, errno := e }, rest) := by
  rw [ackLoop_skip env pre _ hpre]
  simp [ackLoop, ERR, EOF, he]

/-! ## The subprocess protocol: classification and acknowledgement -/

/-- C1: `falliblesubprocess` classifies every wait status by the status
alone.  It returns `urqr_normal`, writing nothing on standard error, exactly
when the status is a normal exit with code 0.  Otherwise it writes the label
and then: for a normal exit the numeric exit code; for a signal termination
`was interrupted` when the signal is `SIGINT` and the signal's description
otherwise, with the core-dump note exactly when the core-dump flag is set;
for any other status the raw status value.  In these cases, once the input
holds a newline after reads that the loop passes over, it returns
`urqr_fail`. -/
theorem falliblesubprocess_classifies (env : Env) (cmd : command) (s : State) :
    ((env.WIFEXITED (env.subprocStatus s.clock cmd) = true ∧
        env.WEXITSTATUS (env.subprocStatus s.clock cmd) = 0) →
      falliblesubprocess env cmd s
        = .ok (urqresult.urqr_normal, (afterWait cmd s).emit (Event.sleep 1))) ∧
    (∀ s1, falliblesubprocess env cmd s = .ok (urqresult.urqr_normal, s1) →
      env.WIFEXITED (env.subprocStatus s.clock cmd) = true ∧
        env.WEXITSTATUS (env.subprocStatus s.clock cmd) = 0) ∧
    (¬ (env.WIFEXITED (env.subprocStatus s.clock cmd) = true ∧
        env.WEXITSTATUS (env.subprocStatus s.clock cmd) = 0) →
      ∀ (pre rest : List ReadResult) (e : Int),
        s.stdin = pre ++ { c := newline, errno := e } :: rest →
        (∀ x ∈ pre, Skipped env x) →
        falliblesubprocess env cmd s
          = .ok (urqresult.urqr_fail, { afterDiagnostic env cmd s with stdin := rest })) ∧
    (∀ status : Int, env.WIFEXITED status = true →
      diagnostic env cmd.name status =
        ["\n" ++ cmd.name ++ " ",
         "returned error exit status " ++ toString (env.WEXITSTATUS status) ++ ".\n",
         "Press <enter> to continue.\n"]) ∧
    (∀ status : Int, env.WIFEXITED status = false → env.WIFSIGNALED status = true →
      diagnostic env cmd.name status =
        ["\n" ++ cmd.name ++ " ",
         if env.WTERMSIG status = env.SIGINT then "was interrupted.\n"
         else "was terminated by a signal: " ++ env.strsignal (env.WTERMSIG status) ++ ".\n"]
        ++ (if env.WCOREDUMP status = true then ["(It left a coredump.)\n"] else [])
        ++ ["Press <enter> to continue.\n"]) ∧
    (∀ status : Int, env.WIFEXITED status = false → env.WIFSIGNALED status = false →
      diagnostic env cmd.name status =
        ["\n" ++ cmd.name ++ " ",
         "failed with an unknown wait return code " ++ toString status ++ ".\n",
         "Press <enter> to continue.\n"]) := by
  refine ⟨?_, ?_, ?_, ?_, ?_, ?_⟩
  · intro h
    rw [falliblesubprocess_unfold, if_pos h]
  · intro s1 h
    by_contra hn
    rw [falliblesubprocess_unfold, if_neg hn] at h
    cases hack : ackLoop env s.stdin with
    | none => rw [hack] at h; cases h
    | some p =>
      rw [hack] at h
      obtain ⟨r, rest⟩ := p
      by_cases hc : r.c = ERR ∨ r.c = EOF
      · simp only [hc, if_true] at h
        cases h
      · simp only [hc, if_false] at h
        cases h
  · intro hn pre rest e hin hpre
    rw [falliblesubprocess_unfold, if_neg hn, hin, ackLoop_newline env pre rest e hpre]
    simp [newline, ERR, EOF]
  · intro status h
    simp [diagnostic, h]
  · intro status h1 h2
    by_cases hs : env.WTERMSIG status = env.SIGINT <;>
      simp [diagnostic, h1, h2, hs]
  · intro status h1 h2
    simp [diagnostic, h1, h2]

/-- C1 at a child that exits with code 3, the operator typing `x` and a
newline. -/
theorem falliblesubprocess_classifies_witness :
    falliblesubprocess (happy 768).env (dpkgCommand (happy 768).env "dpkg --remove" "--remove")
        (State.initial enterLine)
      = .ok (urqresult.urqr_fail,
          { afterDiagnostic (happy 768).env
              (dpkgCommand (happy 768).env "dpkg --remove" "--remove")
              (State.initial enterLine) with stdin := [] }) :=
  (falliblesubprocess_classifies (happy 768).env
      (dpkgCommand (happy 768).env "dpkg --remove" "--remove")
      (State.initial enterLine)).2.2.1 (by decide)
    [{ c := 120, errno := 0 }] [] 0 (by rfl) (by decide)

/-- C7 as stated fails at end-of-stream: a child that exits with code 3 and
an input that is at end-of-stream make `falliblesubprocess` end the process
through `ohshite`; it does not return `urqr_fail`. -/
theorem ack_end_of_stream_is_fatal :
    (falliblesubprocess (happy 768).env
        (dpkgCommand (happy 768).env "dpkg --remove" "--remove")
        (State.initial endOfStream)).isFatal = true ∧
    (falliblesubprocess (happy 768).env
        (dpkgCommand (happy 768).env "dpkg --remove" "--remove")
        (State.initial endOfStream)).value = none := by
  decide

theorem ackLoop_all_skipped (env : Env) (l : List ReadResult)
    (h : ∀ x ∈ l, Skipped env x) : ackLoop env l = none := by
  have hs := ackLoop_skip env l [] h
  rw [List.append_nil] at hs
  rw [hs]
  rfl

/-- C7, amended: for every status that is not a clean exit and every input
that begins with reads the loop passes over (characters other than a
newline, and reads that return the end-of-file value with `errno` at
`EINTR`, which are retried), a newline next makes `falliblesubprocess`
return `urqr_fail` with the input consumed up to and including that newline;
a read next that returns the end-of-file value with `errno` other than
`EINTR` (end-of-stream or a read error) ends the whole process through
`ohshite`; and an input that holds nothing but reads the loop passes over
is read to its end without `falliblesubprocess` returning or ending the
process. -/
theorem ack_newline_or_fatal (env : Env) (cmd : command) (s : State)
    (pre rest : List ReadResult) (e : Int)
    (hn : ¬ (env.WIFEXITED (env.subprocStatus s.clock cmd) = true ∧
        env.WEXITSTATUS (env.subprocStatus s.clock cmd) = 0))
    (hpre : ∀ x ∈ pre, Skipped env x) :
    (s.stdin = pre ++ { c := newline, errno := e } :: rest →
      falliblesubprocess env cmd s
        = .ok (urqresult.urqr_fail, { afterDiagnostic env cmd s with stdin := rest })) ∧
    (s.stdin = pre ++ { c := EOF, errno := e } :: rest → e ≠ env.EINTR →
      falliblesubprocess env cmd s
        = .error (Halt.ohshite "error reading acknowledgement of program failure message"
            { afterDiagnostic env cmd s with stdin := rest })) ∧
    (s.stdin = pre →
      falliblesubprocess env cmd s
        = .error (Halt.inputExhausted { afterDiagnostic env cmd s with stdin := [] })) := by
  refine ⟨?_, ?_, ?_⟩
  · intro hin
    rw [falliblesubprocess_unfold, if_neg hn, hin, ackLoop_newline env pre rest e hpre]
    simp [newline, ERR, EOF]
  · intro hin he
    rw [falliblesubprocess_unfold, if_neg hn, hin, ackLoop_stop env pre rest e hpre he]
    simp [ERR, EOF]
  · intro hin
    rw [falliblesubprocess_unfold, if_neg hn, hin, ackLoop_all_skipped env pre hpre]

/-- C7, amended, at a child that exits with code 3 and an input of `x`, an
interrupted read, and a newline. -/
theorem ack_newline_or_fatal_witness :
    falliblesubprocess (happy 768).env
        (dpkgCommand (happy 768).env "dpkg --remove" "--remove")
        (State.initial [{ c := 120, errno := 0 }, { c := EOF, errno := 4 },
          { c := newline, errno := 4 }, { c := 121, errno := 0 }])
      = .ok (urqresult.urqr_fail,
          { afterDiagnostic (happy 768).env
              (dpkgCommand (happy 768).env "dpkg --remove" "--remove")
              (State.initial [{ c := 120, errno := 0 }, { c := EOF, errno := 4 },
                { c := newline, errno := 4 }, { c := 121, errno := 0 }])
            with stdin := [{ c := 121, errno := 0 }] }) :=
  (ack_newline_or_fatal (happy 768).env
      (dpkgCommand (happy 768).env "dpkg --remove" "--remove")
      (State.initial [{ c := 120, errno := 0 }, { c := EOF, errno := 4 },
        { c := newline, errno := 4 }, { c := 121, errno := 0 }])
      [{ c := 120, errno := 0 }, { c := EOF, errno := 4 }] [{ c := 121, errno := 0 }] 4
      (by decide) (by decide)).1 (by rfl)

/-! ## The catalog load -/

theorem discovered_append (t u : List Event) :
    discovered (t ++ u) = discovered t ++ discovered u := by
  simp [discovered, List.filterMap_append]

theorem readAll_directories (env : Env) (s : State) :
    (readAll env (methoddirectories env) ([], 0, s)).2.2 =
      { s with clock := s.clock + 2,
               trace := s.trace ++ [Event.discovery (env.LIBDIR ++ "/" ++ env.METHODSDIR),
                 Event.discovery (env.LOCALLIBDIR ++ "/" ++ env.METHODSDIR)] } := by
  simp [readAll, methoddirectories, State.emit, State.tick]

/-- C8 as stated fails when the first load finds nothing: discovery that
finds no method during the first call and one method afterwards makes the
first call return `urqr_fail` after scanning both directories, and the
second call scans both directories again, returns `urqr_normal` and
populates the catalog. -/
theorem ensureoptions_retries_after_failure :
    (ensureoptions lateDiscovery.env (State.initial [])).1 = urqresult.urqr_fail ∧
    discovered (ensureoptions lateDiscovery.env (State.initial [])).2.trace
      = ["/usr/lib/dpkg/methods", "/usr/local/lib/dpkg/methods"] ∧
    (ensureoptions lateDiscovery.env
      (ensureoptions lateDiscovery.env (State.initial [])).2).1 = urqresult.urqr_normal ∧
    discovered (ensureoptions lateDiscovery.env
      (ensureoptions lateDiscovery.env (State.initial [])).2).2.trace
      = ["/usr/lib/dpkg/methods", "/usr/local/lib/dpkg/methods",
         "/usr/lib/dpkg/methods", "/usr/local/lib/dpkg/methods"] ∧
    (ensureoptions lateDiscovery.env (State.initial [])).2.options = [] ∧
    (ensureoptions lateDiscovery.env
      (ensureoptions lateDiscovery.env (State.initial [])).2).2.options = [myoption] := by
  decide

theorem ensureoptions_discovered (env : Env) (s : State) :
    discovered (ensureoptions env s).2.trace
      = discovered s.trace ++ (if s.options = [] then methoddirectories env else []) := by
  by_cases ho : s.options = []
  · by_cases hr : (readAll env (methoddirectories env) ([], 0, s)).1 = []
    · simp only [ensureoptions, ho, hr, if_true, readAll_directories, sthfailed, State.emit,
        discovered_append]
      simp [discovered, methoddirectories]
    · simp only [ensureoptions, ho, hr, if_true, if_false, readAll_directories,
        discovered_append]
      simp [discovered, methoddirectories]
  · simp [ensureoptions, ho]

theorem ensureoptions_failed (env : Env) (s : State)
    (h : (ensureoptions env s).1 ≠ urqresult.urqr_normal) :
    (ensureoptions env s).1 = urqresult.urqr_fail ∧
    s.options = [] ∧
    (ensureoptions env s).2.options = [] ∧
    (ensureoptions env s).2.noptions = s.noptions := by
  by_cases ho : s.options = []
  · by_cases hr : (readAll env (methoddirectories env) ([], 0, s)).1 = []
    · simp [ensureoptions, ho, hr, readAll_directories, sthfailed, State.emit]
    · simp [ensureoptions, ho, hr] at h
  · simp [ensureoptions, ho] at h

/-- C8, amended: for every state and every behaviour of discovery, when a
call of `ensureoptions` returns `urqr_normal`, a second call is a no-op: it
returns `urqr_normal` and leaves the whole state as the first call left it
(so it performs no discovery and the catalog and its count are unchanged),
and the first call ran discovery over the system directory and then the
local-override directory exactly when the catalog was empty before it.
When a call does not return `urqr_normal`, it returns `urqr_fail`, it has
run discovery over the two directories, it leaves the catalog empty and
its count as it was, and a second call runs discovery over the two
directories again. -/
theorem ensureoptions_second_call_noop (env : Env) (s : State) :
    ((ensureoptions env s).1 = urqresult.urqr_normal →
      ensureoptions env (ensureoptions env s).2
        = (urqresult.urqr_normal, (ensureoptions env s).2) ∧
      discovered (ensureoptions env s).2.trace
        = discovered s.trace ++
          (if s.options = [] then methoddirectories env else [])) ∧
    ((ensureoptions env s).1 ≠ urqresult.urqr_normal →
      (ensureoptions env s).1 = urqresult.urqr_fail ∧
      (ensureoptions env s).2.options = [] ∧
      (ensureoptions env s).2.noptions = s.noptions ∧
      discovered (ensureoptions env s).2.trace
        = discovered s.trace ++ methoddirectories env ∧
      discovered (ensureoptions env (ensureoptions env s).2).2.trace
        = discovered s.trace ++ methoddirectories env ++ methoddirectories env) := by
  constructor
  · intro h
    refine ⟨?_, ensureoptions_discovered env s⟩
    by_cases ho : s.options = []
    · by_cases hr : (readAll env (methoddirectories env) ([], 0, s)).1 = []
      · simp [ensureoptions, ho, hr] at h
      · simp [ensureoptions, ho, hr]
    · simp [ensureoptions, ho]
  · intro h
    obtain ⟨h1, h2, h3, h4⟩ := ensureoptions_failed env s h
    have d1 := ensureoptions_discovered env s
    have d2 := ensureoptions_discovered env (ensureoptions env s).2
    simp only [h2, if_true] at d1
    simp only [h3, if_true] at d2
    exact ⟨h1, h3, h4, d1, by rw [d2, d1]⟩

/-- C8, amended, at a first load that finds the example option, and at a
first load that finds nothing. -/
theorem ensureoptions_second_call_noop_witness :
    ((ensureoptions (happy 0).env (State.initial [])).1 = urqresult.urqr_normal ∧
      ensureoptions (happy 0).env (ensureoptions (happy 0).env (State.initial [])).2
        = (urqresult.urqr_normal, (ensureoptions (happy 0).env (State.initial [])).2)) ∧
    ((ensureoptions lateDiscovery.env (State.initial [])).1 ≠ urqresult.urqr_normal ∧
      discovered (ensureoptions lateDiscovery.env
          (ensureoptions lateDiscovery.env (State.initial [])).2).2.trace
        = discovered (State.initial []).trace ++ methoddirectories lateDiscovery.env
            ++ methoddirectories lateDiscovery.env) :=
  ⟨⟨by decide,
      ((ensureoptions_second_call_noop (happy 0).env (State.initial [])).1 (by decide)).1⟩,
    ⟨by decide,
      ((ensureoptions_second_call_noop lateDiscovery.env (State.initial [])).2
        (by decide)).2.2.2.2⟩⟩

/-! ## The release action -/

/-- C10 fails on the code at descriptor 0: when `open` hands out descriptor
0 for the lock file, `lockmethod` succeeds with the path computed and
`methlockfd = 0`, and the release action stops in `assert(methlockfd)`, so
`urq_update` ends in that failed assertion instead of returning. -/
theorem cu_unlockmethod_asserts_at_descriptor_zero :
    (lockmethod descriptorZero.env (State.initial [])).1 = urqresult.urqr_normal ∧
    (lockmethod descriptorZero.env (State.initial [])).2.methodlockfile
      = some "/var/lib/dpkg/methlock" ∧
    (lockmethod descriptorZero.env (State.initial [])).2.methlockfd = 0 ∧
    (cu_unlockmethod descriptorZero.env
      (lockmethod descriptorZero.env (State.initial [])).2).failedAssertion
      = some "methlockfd" ∧
    (urq_update descriptorZero.env (State.initial [])).failedAssertion
      = some "methlockfd" := by
  decide

theorem cu_unlockmethod_passes (env : Env) (s : State) (hf : s.methodlockfile.isSome = true)
    (hd : s.methlockfd ≠ 0) :
    cu_unlockmethod env s =
      .ok ((), if (env.fcntlUnlock s.clock s.methlockfd).ret = -1 then
          sthfailed env "unable to unlock access method area"
            (s.emit (Event.unlockAttempt s.methlockfd)).tick
        else { (s.emit (Event.unlockAttempt s.methlockfd)).tick with lockHeld := false }) := by
  have hn : s.methodlockfile.isNone = false := by
    cases hm : s.methodlockfile with
    | none => rw [hm] at hf; cases hf
    | some v => rfl
  unfold cu_unlockmethod
  rw [hn]
  simp only [hd, if_false, Bool.false_eq_true]
  split <;> rfl

/-! ## What a subprocess run leaves alone -/

theorem spawned_append (t u : List Event) : spawned (t ++ u) = spawned t ++ spawned u := by
  simp [spawned, List.filterMap_append]

theorem persisted_append (t u : List Event) :
    persisted (t ++ u) = persisted t ++ persisted u := by
  simp [persisted, List.filterMap_append]

theorem reports_append (t u : List Event) : reports (t ++ u) = reports t + reports u := by
  simp [reports, List.countP_append]

theorem unlocks_append (t u : List Event) : unlocks (t ++ u) = unlocks t + unlocks u := by
  simp [unlocks, List.countP_append]

theorem lockAttempts_append (t u : List Event) :
    lockAttempts (t ++ u) = lockAttempts t + lockAttempts u := by
  simp [lockAttempts, List.countP_append]

theorem menus_append (t u : List Event) : menus (t ++ u) = menus t + menus u := by
  simp [menus, List.countP_append]

theorem spawned_stderr (l : List String) : spawned (l.map Event.stderrText) = [] := by
  induction l with
  | nil => rfl
  | cons x xs ih => simp [spawned]

theorem persisted_stderr (l : List String) : persisted (l.map Event.stderrText) = [] := by
  induction l with
  | nil => rfl
  | cons x xs ih => simp [persisted]

theorem discovered_stderr (l : List String) : discovered (l.map Event.stderrText) = [] := by
  induction l with
  | nil => rfl
  | cons x xs ih => simp [discovered]

theorem unlocks_stderr (l : List String) : unlocks (l.map Event.stderrText) = 0 := by
  induction l with
  | nil => rfl
  | cons x xs ih => simp [unlocks]

theorem lockAttempts_stderr (l : List String) : lockAttempts (l.map Event.stderrText) = 0 := by
  induction l with
  | nil => rfl
  | cons x xs ih => simp [lockAttempts]

theorem menus_stderr (l : List String) : menus (l.map Event.stderrText) = 0 := by
  induction l with
  | nil => rfl
  | cons x xs ih => simp [menus]

theorem reports_stderr (l : List String) : reports (l.map Event.stderrText) = l.length := by
  induction l with
  | nil => rfl
  | cons x xs ih => simp [reports] at ih ⊢

theorem diagnostic_length_pos (env : Env) (name : String) (status : Int) :
    0 < (diagnostic env name status).length := by
  simp [diagnostic]

/-- The state in which a subprocess run ends is one of three. -/
theorem falliblesubprocess_final (env : Env) (cmd : command) (s : State) :
    (falliblesubprocess env cmd s).final = (afterWait cmd s).emit (Event.sleep 1) ∨
    ∃ rest, (falliblesubprocess env cmd s).final
      = { afterDiagnostic env cmd s with stdin := rest } := by
  rw [falliblesubprocess_unfold]
  split
  · exact Or.inl rfl
  · right
    cases hack : ackLoop env s.stdin with
    | none => exact ⟨[], rfl⟩
    | some p =>
      obtain ⟨r, rest⟩ := p
      refine ⟨rest, ?_⟩
      by_cases hc : r.c = ERR ∨ r.c = EOF
      · simp only [hc, if_true]; rfl
      · simp only [hc, if_false]; rfl

theorem falliblesubprocess_frame (env : Env) (cmd : command) (s : State) :
    (falliblesubprocess env cmd s).final.methodlockfile = s.methodlockfile ∧
    (falliblesubprocess env cmd s).final.methlockfd = s.methlockfd ∧
    (falliblesubprocess env cmd s).final.lockHeld = s.lockHeld ∧
    (falliblesubprocess env cmd s).final.options = s.options ∧
    (falliblesubprocess env cmd s).final.noptions = s.noptions ∧
    (falliblesubprocess env cmd s).final.coption = s.coption ∧
    (falliblesubprocess env cmd s).final.cleanups = s.cleanups ∧
    (falliblesubprocess env cmd s).final.clock = s.clock + 1 ∧
    spawned (falliblesubprocess env cmd s).final.trace = spawned s.trace ++ [cmd] ∧
    unlocks (falliblesubprocess env cmd s).final.trace = unlocks s.trace ∧
    lockAttempts (falliblesubprocess env cmd s).final.trace = lockAttempts s.trace ∧
    discovered (falliblesubprocess env cmd s).final.trace = discovered s.trace ∧
    menus (falliblesubprocess env cmd s).final.trace = menus s.trace ∧
    persisted (falliblesubprocess env cmd s).final.trace = persisted s.trace := by
  rcases falliblesubprocess_final env cmd s with h | ⟨rest, h⟩
  · rw [h]
    simp [afterWait, State.emit, runTrace, spawned_append, unlocks_append,
      lockAttempts_append, discovered_append, menus_append, persisted_append]
    simp [spawned, unlocks, lockAttempts, discovered, menus, persisted]
  · rw [h]
    simp [afterDiagnostic, runTrace, spawned_append, unlocks_append,
      lockAttempts_append, discovered_append, menus_append, persisted_append,
      spawned_stderr, unlocks_stderr, lockAttempts_stderr, discovered_stderr,
      menus_stderr, persisted_stderr]
    simp [spawned, unlocks, lockAttempts, discovered, menus, persisted]

/-! ## Remove and configure -/

theorem rundpkgauto_frame (env : Env) (name dpkgmode : String) (s : State) :
    (dpkgCommand env name dpkgmode).argv
      = [env.DPKG, "--admindir", env.admindir, "--pending", dpkgmode] ∧
    (dpkgCommand env name dpkgmode).filename = env.DPKG.toList ∧
    spawned (rundpkgauto env name dpkgmode s).final.trace
      = spawned s.trace ++ [dpkgCommand env name dpkgmode] ∧
    (rundpkgauto env name dpkgmode s).value
      = (falliblesubprocess env (dpkgCommand env name dpkgmode)
          ((s.emit Event.cursesOff).emit
            (Event.stdoutText ("running dpkg --pending " ++ dpkgmode ++ " ...\n")))).value ∧
    ((env.WIFEXITED (env.subprocStatus s.clock (dpkgCommand env name dpkgmode)) = true ∧
        env.WEXITSTATUS (env.subprocStatus s.clock (dpkgCommand env name dpkgmode)) = 0) →
      (rundpkgauto env name dpkgmode s).value = some urqresult.urqr_normal) ∧
    (rundpkgauto env name dpkgmode s).final.methodlockfile = s.methodlockfile ∧
    (rundpkgauto env name dpkgmode s).final.methlockfd = s.methlockfd ∧
    (rundpkgauto env name dpkgmode s).final.lockHeld = s.lockHeld ∧
    (rundpkgauto env name dpkgmode s).final.options = s.options ∧
    (rundpkgauto env name dpkgmode s).final.noptions = s.noptions ∧
    (rundpkgauto env name dpkgmode s).final.coption = s.coption ∧
    (rundpkgauto env name dpkgmode s).final.clock = s.clock + 1 ∧
    lockAttempts (rundpkgauto env name dpkgmode s).final.trace = lockAttempts s.trace ∧
    unlocks (rundpkgauto env name dpkgmode s).final.trace = unlocks s.trace ∧
    discovered (rundpkgauto env name dpkgmode s).final.trace = discovered s.trace := by
  have hf := falliblesubprocess_frame env (dpkgCommand env name dpkgmode)
    ((s.emit Event.cursesOff).emit
      (Event.stdoutText ("running dpkg --pending " ++ dpkgmode ++ " ...\n")))
  obtain ⟨h1, h2, h3, h4, h5, h6, _, h8, h9, h10, h11, h12, _, _⟩ := hf
  refine ⟨rfl, rfl, ?_, rfl, ?_, h1, h2, h3, h4, h5, h6, h8, ?_, ?_, ?_⟩
  · show spawned (falliblesubprocess _ _ _).final.trace = _
    rw [h9]
    simp [State.emit, spawned_append]
    simp [spawned]
  · intro hc
    have hr := (falliblesubprocess_classifies env (dpkgCommand env name dpkgmode)
      ((s.emit Event.cursesOff).emit
        (Event.stdoutText ("running dpkg --pending " ++ dpkgmode ++ " ...\n")))).1 hc
    show (falliblesubprocess _ _ _).value = _
    rw [hr]
    rfl
  · show lockAttempts (falliblesubprocess _ _ _).final.trace = _
    rw [h11]
    simp [State.emit, lockAttempts_append]
    simp [lockAttempts]
  · show unlocks (falliblesubprocess _ _ _).final.trace = _
    rw [h10]
    simp [State.emit, unlocks_append]
    simp [unlocks]
  · show discovered (falliblesubprocess _ _ _).final.trace = _
    rw [h12]
    simp [State.emit, discovered_append]
    simp [discovered]

theorem rundpkgauto_runsOnly (env : Env) (name dpkgmode : String) (s : State) :
    RunsOnly env s (rundpkgauto env name dpkgmode s) (dpkgCommand env name dpkgmode) := by
  obtain ⟨_, _, h3, _, h5, h6, h7, h8, h9, h10, h11, h12, h13, h14, h15⟩ :=
    rundpkgauto_frame env name dpkgmode s
  refine ⟨h3, h5, ?_, h6, h7, h8, h9, h10, h11, h12, h13, h14, h15⟩
  intro hn pre rest e hin hpre
  have hr := (falliblesubprocess_classifies env (dpkgCommand env name dpkgmode)
    ((s.emit Event.cursesOff).emit
      (Event.stdoutText ("running dpkg --pending " ++ dpkgmode ++ " ...\n")))).2.2.1
    hn pre rest e hin hpre
  show (falliblesubprocess _ _ _).value = _
  rw [hr]
  rfl

/-- C5: for every state, `urq_remove` and `urq_config` build the command
of the package tool with the argument list (tool, `--admindir`, admindir,
`--pending`, `--remove`), respectively (..., `--configure`), run that one
command and nothing else, return what the subprocess protocol returns for
its wait status, and leave the lock path, the lock descriptor, the lock,
the catalog and the current selection as they were, with no discovery, no
lock attempt, no unlock and no oracle query other than the wait. -/
theorem urq_remove_config_bypass_lock (env : Env) (s : State) :
    dpkgCommand env "dpkg --remove" "--remove"
      = { filename := env.DPKG.toList, name := "dpkg --remove",
          argv := [env.DPKG, "--admindir", env.admindir, "--pending", "--remove"] } ∧
    dpkgCommand env "dpkg --configure" "--configure"
      = { filename := env.DPKG.toList, name := "dpkg --configure",
          argv := [env.DPKG, "--admindir", env.admindir, "--pending", "--configure"] } ∧
    RunsOnly env s (urq_remove env s) (dpkgCommand env "dpkg --remove" "--remove") ∧
    RunsOnly env s (urq_config env s) (dpkgCommand env "dpkg --configure" "--configure") :=
  ⟨rfl, rfl, rundpkgauto_runsOnly env "dpkg --remove" "--remove" s,
    rundpkgauto_runsOnly env "dpkg --configure" "--configure" s⟩

/-- C5 at a package tool that exits with code 3 while the lock is held by
an earlier stage: the value is `urqr_fail` and the lock is still held. -/
theorem urq_remove_config_bypass_lock_witness :
    (urq_remove (happy 768).env
      { State.initial enterLine with lockHeld := true, methlockfd := 3 }).value
      = some urqresult.urqr_fail ∧
    (urq_remove (happy 768).env
      { State.initial enterLine with lockHeld := true, methlockfd := 3 }).final.lockHeld
      = true :=
  ⟨(urq_remove_config_bypass_lock (happy 768).env
      { State.initial enterLine with lockHeld := true, methlockfd := 3 }).2.2.1.2.2.1
      (by decide) [{ c := 120, errno := 0 }] [] 0 (by rfl) (by decide),
   (urq_remove_config_bypass_lock (happy 768).env
      { State.initial enterLine with lockHeld := true, methlockfd := 3 }).2.2.1.2.2.2.2.2.1⟩

/-! ## Popping the release action -/

theorem popAndReturn_release (env : Env) (ur : urqresult) (s : State)
    (rest : List cleanupentry) (hc : s.cleanups = releaseEntry :: rest)
    (hf : s.methodlockfile.isSome = true) (hd : s.methlockfd ≠ 0) :
    popAndReturn env ur s = .ok (ur, released env s rest) := by
  have hl := land_allBits_normaltidy
  have hp := cu_unlockmethod_passes env { s with cleanups := rest } hf hd
  simp only [popAndReturn, pop_cleanup, hc, releaseEntry, runSlot, runCleanup, hl, ne_eq,
    not_false_eq_true, if_true, hp]
  rfl

theorem popAndReturn_assert (env : Env) (ur : urqresult) (s : State)
    (rest : List cleanupentry) (hc : s.cleanups = releaseEntry :: rest)
    (hf : s.methodlockfile.isSome = true) (hd : s.methlockfd = 0) :
    popAndReturn env ur s
      = .error (Halt.assertFailed "methlockfd" { s with cleanups := rest }) := by
  have hl := land_allBits_normaltidy
  have hn : s.methodlockfile.isNone = false := by
    cases hm : s.methodlockfile with
    | none => rw [hm] at hf; cases hf
    | some v => rfl
  simp [popAndReturn, pop_cleanup, hc, releaseEntry, runSlot, runCleanup, hl,
    cu_unlockmethod, hn, hd]

theorem released_frame (env : Env) (s : State) (rest : List cleanupentry) :
    (released env s rest).cleanups = rest ∧
    (released env s rest).clock = s.clock + 1 ∧
    (released env s rest).methlockfd = s.methlockfd ∧
    (released env s rest).methodlockfile = s.methodlockfile ∧
    (released env s rest).options = s.options ∧
    (released env s rest).coption = s.coption ∧
    (released env s rest).stdin = s.stdin ∧
    unlocks (released env s rest).trace = unlocks s.trace + 1 ∧
    spawned (released env s rest).trace = spawned s.trace ∧
    persisted (released env s rest).trace = persisted s.trace ∧
    menus (released env s rest).trace = menus s.trace ∧
    reports s.trace ≤ reports (released env s rest).trace ∧
    ((env.fcntlUnlock s.clock s.methlockfd).ret ≠ -1 →
      (released env s rest).lockHeld = false) ∧
    ((env.fcntlUnlock s.clock s.methlockfd).ret = -1 →
      (released env s rest).lockHeld = s.lockHeld ∧
      reports s.trace < reports (released env s rest).trace) := by
  by_cases h : (env.fcntlUnlock s.clock s.methlockfd).ret = -1
  · simp [released, h, sthfailed, State.emit, State.tick, unlocks_append, spawned_append,
      persisted_append, menus_append, reports_append]
    simp [unlocks, spawned, persisted, menus, reports]
  · simp [released, h, State.emit, State.tick, unlocks_append, spawned_append,
      persisted_append, menus_append, reports_append]
    simp [unlocks, spawned, persisted, menus, reports]

/-! ## The stages before the command -/

theorem ensureoptions_frame (env : Env) (s : State) :
    (ensureoptions env s).2.cleanups = s.cleanups ∧
    (ensureoptions env s).2.methodlockfile = s.methodlockfile ∧
    (ensureoptions env s).2.methlockfd = s.methlockfd ∧
    (ensureoptions env s).2.lockHeld = s.lockHeld ∧
    (ensureoptions env s).2.stdin = s.stdin ∧
    unlocks (ensureoptions env s).2.trace = unlocks s.trace ∧
    spawned (ensureoptions env s).2.trace = spawned s.trace ∧
    persisted (ensureoptions env s).2.trace = persisted s.trace ∧
    menus (ensureoptions env s).2.trace = menus s.trace ∧
    lockAttempts (ensureoptions env s).2.trace = lockAttempts s.trace ∧
    reports s.trace ≤ reports (ensureoptions env s).2.trace ∧
    ((ensureoptions env s).1 ≠ urqresult.urqr_normal →
      (ensureoptions env s).1 = urqresult.urqr_fail ∧
      reports s.trace < reports (ensureoptions env s).2.trace) := by
  by_cases ho : s.options = []
  · by_cases hr : (readAll env (methoddirectories env) ([], 0, s)).1 = []
    · simp [ensureoptions, ho, hr, readAll_directories, sthfailed, State.emit,
        unlocks_append, spawned_append, persisted_append, menus_append, lockAttempts_append,
        reports_append]
      simp [unlocks, spawned, persisted, menus, lockAttempts, reports]
    · simp [ensureoptions, ho, hr, readAll_directories,
        unlocks_append, spawned_append, persisted_append, menus_append, lockAttempts_append,
        reports_append]
      simp [unlocks, spawned, persisted, menus, lockAttempts, reports]
  · simp [ensureoptions, ho]

theorem lockmethodSetlk_ok (env : Env) (s : State)
    (h : (lockmethodSetlk env s).1 = urqresult.urqr_normal) :
    (lockmethodSetlk env s).2 =
      { s with clock := s.clock + 1, lockHeld := true,
               cleanups := releaseEntry :: s.cleanups,
               trace := s.trace ++ [Event.lockAttempt s.methlockfd] } := by
  by_cases hl : (env.fcntlLock s.clock s.methlockfd).ret = -1
  · by_cases he : (env.fcntlLock s.clock s.methlockfd).errno = env.EWOULDBLOCK ∨
        (env.fcntlLock s.clock s.methlockfd).errno = env.EAGAIN
    · simp [lockmethodSetlk, hl, he] at h
    · simp [lockmethodSetlk, hl, he] at h
  · simp [lockmethodSetlk, hl, push_cleanup, State.emit, State.tick, releaseEntry]

theorem lockmethodSetlk_fail (env : Env) (s : State)
    (h : (lockmethodSetlk env s).1 ≠ urqresult.urqr_normal) :
    (lockmethodSetlk env s).1 = urqresult.urqr_fail ∧
    (lockmethodSetlk env s).2.cleanups = s.cleanups ∧
    (lockmethodSetlk env s).2.lockHeld = s.lockHeld ∧
    spawned (lockmethodSetlk env s).2.trace = spawned s.trace ∧
    unlocks (lockmethodSetlk env s).2.trace = unlocks s.trace ∧
    reports s.trace < reports (lockmethodSetlk env s).2.trace := by
  by_cases hl : (env.fcntlLock s.clock s.methlockfd).ret = -1
  · by_cases he : (env.fcntlLock s.clock s.methlockfd).errno = env.EWOULDBLOCK ∨
        (env.fcntlLock s.clock s.methlockfd).errno = env.EAGAIN
    · simp [lockmethodSetlk, hl, he, sthfailed, State.emit, State.tick, spawned_append,
        unlocks_append, reports_append]
      simp [spawned, unlocks, reports]
    · simp [lockmethodSetlk, hl, he, sthfailed, State.emit, State.tick, spawned_append,
        unlocks_append, reports_append]
      simp [spawned, unlocks, reports]
  · simp [lockmethodSetlk, hl] at h

theorem withLockPath_frame (env : Env) (s : State) :
    (withLockPath env s).methodlockfile.isSome = true ∧
    (withLockPath env s).methlockfd = s.methlockfd ∧
    (withLockPath env s).cleanups = s.cleanups ∧
    (withLockPath env s).lockHeld = s.lockHeld ∧
    (withLockPath env s).clock = s.clock ∧
    (withLockPath env s).options = s.options ∧
    (withLockPath env s).stdin = s.stdin ∧
    (withLockPath env s).trace = s.trace := by
  cases hm : s.methodlockfile with
  | none => simp [withLockPath, hm]
  | some v => simp [withLockPath, hm]

theorem lockmethod_unfold (env : Env) (s : State) :
    lockmethod env s =
      if s.methlockfd = -1 then
        if (afterOpen env s).methlockfd = -1 then
          if (env.sysOpen s.clock ((withLockPath env s).methodlockfile.getD "")).errno
                = env.EPERM ∨
              (env.sysOpen s.clock ((withLockPath env s).methodlockfile.getD "")).errno
                = env.EACCES then
            (urqresult.urqr_fail,
              sthfailed env "requested operation requires superuser privilege"
                (afterOpen env s))
          else
            (urqresult.urqr_fail,
              sthfailed env "unable to open/create access method lockfile"
                (afterOpen env s))
        else lockmethodSetlk env (afterOpen env s)
      else lockmethodSetlk env (withLockPath env s) := by
  cases hm : s.methodlockfile with
  | none => simp [lockmethod, afterOpen, withLockPath, hm]
  | some v => simp [lockmethod, afterOpen, withLockPath, hm]

theorem afterOpen_frame (env : Env) (s : State) :
    (afterOpen env s).methodlockfile.isSome = true ∧
    (afterOpen env s).cleanups = s.cleanups ∧
    (afterOpen env s).lockHeld = s.lockHeld ∧
    (afterOpen env s).options = s.options ∧
    (afterOpen env s).stdin = s.stdin ∧
    (afterOpen env s).trace
      = s.trace ++ [Event.openLockFile ((withLockPath env s).methodlockfile.getD "")] := by
  obtain ⟨h1, _, h3, h4, _, h6, h7, h8⟩ := withLockPath_frame env s
  simp [afterOpen, State.emit, State.tick, h1, h3, h4, h6, h7, h8]

theorem lockmethod_ok (env : Env) (s : State)
    (h : (lockmethod env s).1 = urqresult.urqr_normal) :
    (lockmethod env s).2.cleanups = releaseEntry :: s.cleanups ∧
    (lockmethod env s).2.methodlockfile.isSome = true ∧
    (lockmethod env s).2.lockHeld = true ∧
    (lockmethod env s).2.methlockfd ≠ -1 ∧
    (lockmethod env s).2.options = s.options ∧
    (lockmethod env s).2.stdin = s.stdin ∧
    unlocks (lockmethod env s).2.trace = unlocks s.trace ∧
    spawned (lockmethod env s).2.trace = spawned s.trace ∧
    persisted (lockmethod env s).2.trace = persisted s.trace ∧
    menus (lockmethod env s).2.trace = menus s.trace ∧
    reports (lockmethod env s).2.trace = reports s.trace := by
  rw [lockmethod_unfold] at h ⊢
  by_cases hfd : s.methlockfd = -1
  · by_cases ho : (afterOpen env s).methlockfd = -1
    · by_cases he : (env.sysOpen s.clock ((withLockPath env s).methodlockfile.getD "")).errno
          = env.EPERM ∨
          (env.sysOpen s.clock ((withLockPath env s).methodlockfile.getD "")).errno
            = env.EACCES
      · simp [hfd, ho, he] at h
      · simp [hfd, ho, he] at h
    · simp only [hfd, ho, if_true, if_false] at h ⊢
      obtain ⟨a1, a2, a3, a4, a5, a6⟩ := afterOpen_frame env s
      rw [lockmethodSetlk_ok env _ h]
      simp [a1, a2, a4, a5, a6, ho, unlocks_append, spawned_append, persisted_append,
        menus_append, reports_append]
      simp [unlocks, spawned, persisted, menus, reports]
  · simp only [hfd, if_false] at h ⊢
    obtain ⟨a1, a2, a3, a4, a5, a6, a7, a8⟩ := withLockPath_frame env s
    rw [lockmethodSetlk_ok env _ h]
    simp [a1, a2, a3, a6, a7, a8, hfd, unlocks_append, spawned_append, persisted_append,
      menus_append, reports_append]
    simp [unlocks, spawned, persisted, menus, reports]

theorem lockmethod_fail (env : Env) (s : State)
    (h : (lockmethod env s).1 ≠ urqresult.urqr_normal) :
    (lockmethod env s).1 = urqresult.urqr_fail ∧
    (lockmethod env s).2.cleanups = s.cleanups ∧
    (lockmethod env s).2.lockHeld = s.lockHeld ∧
    spawned (lockmethod env s).2.trace = spawned s.trace ∧
    unlocks (lockmethod env s).2.trace = unlocks s.trace ∧
    reports s.trace < reports (lockmethod env s).2.trace ∧
    (s.methlockfd = -1 → (afterOpen env s).methlockfd = -1 →
      lockAttempts (lockmethod env s).2.trace = lockAttempts s.trace) := by
  rw [lockmethod_unfold] at h ⊢
  obtain ⟨a1, a2, a3, a4, a5, a6⟩ := afterOpen_frame env s
  obtain ⟨b1, b2, b3, b4, b5, b6, b7, b8⟩ := withLockPath_frame env s
  by_cases hfd : s.methlockfd = -1
  · by_cases ho : (afterOpen env s).methlockfd = -1
    · by_cases he : (env.sysOpen s.clock ((withLockPath env s).methodlockfile.getD "")).errno
          = env.EPERM ∨
          (env.sysOpen s.clock ((withLockPath env s).methodlockfile.getD "")).errno
            = env.EACCES
      · simp [hfd, ho, he, sthfailed, State.emit, a2, a3, a6, spawned_append,
          unlocks_append, reports_append, lockAttempts_append]
        simp [spawned, unlocks, reports, lockAttempts]
      · simp [hfd, ho, he, sthfailed, State.emit, a2, a3, a6, spawned_append,
          unlocks_append, reports_append, lockAttempts_append]
        simp [spawned, unlocks, reports, lockAttempts]
    · simp only [hfd, ho, if_true, if_false] at h ⊢
      obtain ⟨c1, c2, c3, c4, c5, c6⟩ := lockmethodSetlk_fail env _ h
      refine ⟨c1, by rw [c2, a2], by rw [c3, a3], ?_, ?_, ?_, fun _ hx => False.elim hx⟩
      · rw [c4, a6, spawned_append]; simp [spawned]
      · rw [c5, a6, unlocks_append]; simp [unlocks]
      · have : reports (afterOpen env s).trace = reports s.trace := by
          rw [a6, reports_append]; simp [reports]
        omega
  · simp only [hfd, if_false] at h ⊢
    obtain ⟨c1, c2, c3, c4, c5, c6⟩ := lockmethodSetlk_fail env _ h
    refine ⟨c1, by rw [c2, b3], by rw [c3, b4], by rw [c4, b8], by rw [c5, b8], ?_,
      fun hx => False.elim hx⟩
    rw [b8] at c6
    exact c6

/-! ## The critical section -/

theorem inside_locked (env : Env) (s : State)
    (hlock : (lockmethod env (ensureoptions env s).2).1 = urqresult.urqr_normal) :
    Inside s (locked env s) := by
  obtain ⟨e1, _, _, _, _, e6, _, _, _, _, e11, _⟩ := ensureoptions_frame env s
  obtain ⟨l1, l2, l3, _, _, _, l7, _, _, _, l11⟩ := lockmethod_ok env _ hlock
  refine ⟨?_, l2, ?_, ?_, l3⟩
  · show (lockmethod env (ensureoptions env s).2).2.cleanups = _
    rw [l1, e1]
  · show unlocks (lockmethod env (ensureoptions env s).2).2.trace = _
    rw [l7, e6]
  · show _ ≤ reports (lockmethod env (ensureoptions env s).2).2.trace
    rw [l11]
    exact e11

theorem inside_step (s sx sy : State) (h : Inside s sx)
    (hc : sy.cleanups = sx.cleanups) (hf : sy.methodlockfile = sx.methodlockfile)
    (hl : sy.lockHeld = sx.lockHeld)
    (hu : unlocks sy.trace = unlocks sx.trace)
    (hr : reports sx.trace ≤ reports sy.trace) : Inside s sy := by
  obtain ⟨h1, h2, h3, h4, h5⟩ := h
  exact ⟨by rw [hc, h1], by rw [hf, h2], by rw [hu, h3], le_trans h4 hr, by rw [hl, h5]⟩

theorem inside_resolved (env : Env) (s : State) (h : Inside s (locked env s)) :
    Inside s (resolved env s) := by
  refine inside_step s _ _ h rfl rfl rfl ?_ ?_
  · simp [resolved, getcurrentopt, State.emit, State.tick, unlocks_append]
    simp [unlocks]
  · simp [resolved, getcurrentopt, State.emit, State.tick, reports_append]

theorem inside_setupMenu (env : Env) (s : State) (h : Inside s (resolved env s)) :
    Inside s (setupMenu env s).2 := by
  refine inside_step s _ _ h rfl rfl rfl ?_ ?_
  · simp [setupMenu, display, State.emit, State.tick, unlocks_append]
    simp [unlocks]
  · simp [setupMenu, display, State.emit, State.tick, reports_append]

theorem popAndReturn_inside (env : Env) (ur ur1 : urqresult) (s sx s1 : State)
    (h : Inside s sx) (hret : popAndReturn env ur sx = .ok (ur1, s1)) :
    ur1 = ur ∧ s1 = released env sx s.cleanups ∧ sx.methlockfd ≠ 0 := by
  obtain ⟨h1, h2, _, _⟩ := h
  by_cases hd : sx.methlockfd = 0
  · rw [popAndReturn_assert env ur sx s.cleanups h1 h2 hd] at hret
    cases hret
  · rw [popAndReturn_release env ur sx s.cleanups h1 h2 hd] at hret
    cases hret
    exact ⟨rfl, rfl, hd⟩

theorem released_trace (env : Env) (s : State) (rest : List cleanupentry) :
    ((env.fcntlUnlock s.clock s.methlockfd).ret ≠ -1 →
      (released env s rest).trace = s.trace ++ [Event.unlockAttempt s.methlockfd]) ∧
    ((env.fcntlUnlock s.clock s.methlockfd).ret = -1 →
      (released env s rest).trace = s.trace ++ failedUnlock env s.methlockfd) ∧
    reports (released env s rest).trace = reports s.trace +
      (if (env.fcntlUnlock s.clock s.methlockfd).ret = -1 then 1 else 0) := by
  by_cases h : (env.fcntlUnlock s.clock s.methlockfd).ret = -1
  · simp [released, h, sthfailed, State.emit, State.tick, failedUnlock, reports_append]
    simp [reports]
  · simp [released, h, State.emit, State.tick, reports_append]
    simp [reports]

theorem released_once (env : Env) (s sx : State) (h : Inside s sx) :
    ReleasedOnce env s (released env sx s.cleanups) ∧
    reports sx.trace ≤ reports (released env sx s.cleanups).trace := by
  obtain ⟨_, _, h3, _, h5⟩ := h
  obtain ⟨r1, r2, r3, _, _, _, _, r8, _, _, _, r12, r13, r14⟩ :=
    released_frame env sx s.cleanups
  obtain ⟨t1, t2, _⟩ := released_trace env sx s.cleanups
  refine ⟨⟨by rw [r8, h3], r1, ?_, ?_⟩, r12⟩
  · rw [r2, r3, Nat.add_sub_cancel]
    exact fun hu => ⟨r13 hu, sx.trace, t1 hu⟩
  · rw [r2, r3, Nat.add_sub_cancel]
    exact fun hu => ⟨by rw [(r14 hu).1, h5], sx.trace, t2 hu⟩

theorem falliblesubprocess_reports (env : Env) (cmd : command) (sx s2 : State)
    (ur : urqresult) (h : falliblesubprocess env cmd sx = .ok (ur, s2)) :
    reports sx.trace ≤ reports s2.trace ∧
    (ur = urqresult.urqr_fail → reports sx.trace < reports s2.trace) ∧
    (ur = urqresult.urqr_normal ∨ ur = urqresult.urqr_fail) := by
  rw [falliblesubprocess_unfold] at h
  split at h
  · cases h
    simp [afterWait, State.emit, reports_append]
  · have hpos := diagnostic_length_pos env cmd.name (env.subprocStatus sx.clock cmd)
    cases hack : ackLoop env sx.stdin with
    | none => rw [hack] at h; cases h
    | some p =>
      rw [hack] at h
      obtain ⟨r, rest⟩ := p
      by_cases hc : r.c = ERR ∨ r.c = EOF
      · simp only [hc, if_true] at h
        cases h
      · simp only [hc, if_false] at h
        cases h
        simp only [afterDiagnostic, reports_append, reports_stderr]
        refine ⟨by omega, fun _ => by omega, Or.inr trivial⟩

theorem falliblesubprocess_inside (env : Env) (cmd : command) (s sx s2 : State)
    (ur : urqresult) (hin : Inside s sx)
    (h : falliblesubprocess env cmd sx = .ok (ur, s2)) :
    Inside s s2 ∧ (ur = urqresult.urqr_fail → reports s.trace < reports s2.trace) := by
  have hf := falliblesubprocess_frame env cmd sx
  rw [h] at hf
  obtain ⟨f1, _, f3, _, _, _, f7, _, _, f10, _, _, _, _⟩ := hf
  obtain ⟨r1, r2, _⟩ := falliblesubprocess_reports env cmd sx s2 ur h
  refine ⟨inside_step s sx s2 hin f7 f1 f3 f10 r1, fun hu => ?_⟩
  have := r2 hu
  have := hin.2.2.2.1
  omega

theorem runscript_unfold (env : Env) (exepath name : String) (s : State)
    (hens : (ensureoptions env s).1 = urqresult.urqr_normal)
    (hlock : (lockmethod env (ensureoptions env s).2).1 = urqresult.urqr_normal) :
    runscript env exepath name s =
      match (resolved env s).coption with
      | some o =>
        match falliblesubprocess env (scriptCommand env o exepath name).2
            { resolved env s with coption := some (scriptCommand env o exepath name).1 } with
        | .error h => .error h
        | .ok (ur, s2) => popAndReturn env ur s2
      | none =>
        popAndReturn env urqresult.urqr_fail
          (sthfailed env "no access method is selected/configured" (resolved env s)) := by
  simp only [runscript, hens, hlock, ne_eq, not_true_eq_false, if_false]
  rfl

theorem urq_setup_unfold (env : Env) (s : State)
    (hens : (ensureoptions env s).1 = urqresult.urqr_normal)
    (hlock : (lockmethod env (ensureoptions env s).2).1 = urqresult.urqr_normal) :
    urq_setup env s =
      if (setupMenu env s).1 = quitaction.qa_quitchecksave then
        match (setupMenu env s).2.coption with
        | none => .error (Halt.nullDeref (setupMenu env s).2)
        | some o =>
          match falliblesubprocess env
              (scriptCommand env o env.METHODSETUPSCRIPT "query/setup script").2
              { (setupMenu env s).2 with
                coption := some
                  (scriptCommand env o env.METHODSETUPSCRIPT "query/setup script").1 } with
          | .error h => .error h
          | .ok (ur, s2) =>
            popAndReturn env ur
              (if ur = urqresult.urqr_normal then writecurrentopt s2 else s2)
      else popAndReturn env urqresult.urqr_fail (setupMenu env s).2 := by
  simp only [urq_setup, hens, hlock, ne_eq, not_true_eq_false, if_false]
  rfl

theorem writecurrentopt_frame (s : State) :
    (writecurrentopt s).cleanups = s.cleanups ∧
    (writecurrentopt s).methodlockfile = s.methodlockfile ∧
    unlocks (writecurrentopt s).trace = unlocks s.trace ∧
    reports (writecurrentopt s).trace = reports s.trace ∧
    spawned (writecurrentopt s).trace = spawned s.trace ∧
    (writecurrentopt s).lockHeld = s.lockHeld := by
  cases hc : s.coption with
  | none => simp [writecurrentopt, hc]
  | some o =>
    simp [writecurrentopt, hc, State.emit, unlocks_append, reports_append, spawned_append]
    simp [unlocks, reports, spawned]

theorem runscript_returns (env : Env) (exepath name : String) (s s1 : State)
    (ur : urqresult)
    (hens : (ensureoptions env s).1 = urqresult.urqr_normal)
    (hlock : (lockmethod env (ensureoptions env s).2).1 = urqresult.urqr_normal)
    (hret : runscript env exepath name s = .ok (ur, s1)) :
    ReleasedOnce env s s1 ∧
    (ur = urqresult.urqr_fail → reports s.trace < reports s1.trace) := by
  rw [runscript_unfold env exepath name s hens hlock] at hret
  have hI := inside_resolved env s (inside_locked env s hlock)
  cases hco : (resolved env s).coption with
  | none =>
    simp only [hco] at hret
    have hI2 : Inside s (sthfailed env "no access method is selected/configured"
        (resolved env s)) := by
      refine inside_step s _ _ hI rfl rfl rfl ?_ ?_
      · simp [sthfailed, State.emit, unlocks_append]
        simp [unlocks]
      · simp [sthfailed, State.emit, reports_append]
    obtain ⟨_, hs, _⟩ := popAndReturn_inside env _ _ s _ s1 hI2 hret
    obtain ⟨q1, q2⟩ := released_once env s _ hI2
    rw [hs]
    refine ⟨q1, fun _ => ?_⟩
    have h4 := hI.2.2.2.1
    have hst : reports (sthfailed env "no access method is selected/configured"
        (resolved env s)).trace = reports (resolved env s).trace + 1 := by
      simp [sthfailed, State.emit, reports_append]
      simp [reports]
    omega
  | some o =>
    simp only [hco] at hret
    have hI2 : Inside s { resolved env s with
        coption := some (scriptCommand env o exepath name).1 } :=
      inside_step s _ _ hI rfl rfl rfl rfl (le_refl _)
    cases hf : falliblesubprocess env (scriptCommand env o exepath name).2
        { resolved env s with coption := some (scriptCommand env o exepath name).1 } with
    | error h => rw [hf] at hret; cases hret
    | ok p =>
      obtain ⟨ur2, s2⟩ := p
      rw [hf] at hret
      obtain ⟨hI3, hrep⟩ := falliblesubprocess_inside env _ s _ s2 ur2 hI2 hf
      obtain ⟨hu, hs, _⟩ := popAndReturn_inside env _ _ s _ s1 hI3 hret
      obtain ⟨q1, q2⟩ := released_once env s _ hI3
      rw [hs]
      refine ⟨q1, fun hfail => ?_⟩
      have := hrep (by rw [← hu]; exact hfail)
      omega

theorem urq_setup_returns (env : Env) (s s1 : State) (ur : urqresult)
    (hens : (ensureoptions env s).1 = urqresult.urqr_normal)
    (hlock : (lockmethod env (ensureoptions env s).2).1 = urqresult.urqr_normal)
    (hret : urq_setup env s = .ok (ur, s1)) :
    ReleasedOnce env s s1 ∧
    (ur = urqresult.urqr_fail →
      reports s.trace < reports s1.trace ∨
        (setupMenu env s).1 ≠ quitaction.qa_quitchecksave) := by
  rw [urq_setup_unfold env s hens hlock] at hret
  have hI := inside_setupMenu env s (inside_resolved env s (inside_locked env s hlock))
  by_cases hqa : (setupMenu env s).1 = quitaction.qa_quitchecksave
  · simp only [hqa, if_true] at hret
    cases hco : (setupMenu env s).2.coption with
    | none => simp only [hco] at hret; cases hret
    | some o =>
      simp only [hco] at hret
      have hI2 : Inside s { (setupMenu env s).2 with
          coption := some
            (scriptCommand env o env.METHODSETUPSCRIPT "query/setup script").1 } :=
        inside_step s _ _ hI rfl rfl rfl rfl (le_refl _)
      cases hf : falliblesubprocess env
          (scriptCommand env o env.METHODSETUPSCRIPT "query/setup script").2
          { (setupMenu env s).2 with
            coption := some
              (scriptCommand env o env.METHODSETUPSCRIPT "query/setup script").1 } with
      | error h => rw [hf] at hret; cases hret
      | ok p =>
        obtain ⟨ur2, s2⟩ := p
        rw [hf] at hret
        obtain ⟨hI3, hrep⟩ := falliblesubprocess_inside env _ s _ s2 ur2 hI2 hf
        obtain ⟨w1, w2, w3, w4, _, w6⟩ := writecurrentopt_frame s2
        have hI4 : Inside s (if ur2 = urqresult.urqr_normal then writecurrentopt s2
            else s2) := by
          by_cases hn : ur2 = urqresult.urqr_normal
          · simp only [hn, if_true]
            exact inside_step s _ _ hI3 w1 w2 w6 w3 (le_of_eq w4.symm)
          · simp only [hn, if_false]
            exact hI3
        obtain ⟨hu, hs, _⟩ := popAndReturn_inside env _ _ s _ s1 hI4 hret
        obtain ⟨q1, q2⟩ := released_once env s _ hI4
        rw [hs]
        refine ⟨q1, fun hfail => Or.inl ?_⟩
        have hf2 : ur2 = urqresult.urqr_fail := by rw [← hu]; exact hfail
        have := hrep hf2
        have hne : ¬ ur2 = urqresult.urqr_normal := by rw [hf2]; decide
        simp only [hne, if_false] at q2 ⊢
        omega
  · simp only [hqa, if_false] at hret
    obtain ⟨_, hs, _⟩ := popAndReturn_inside env _ _ s _ s1 hI hret
    obtain ⟨q1, _⟩ := released_once env s _ hI
    rw [hs]
    exact ⟨q1, fun _ => Or.inr hqa⟩

/-! ## The lock is released on every return -/

/-- C2 as stated fails when the unlock itself fails: with an `fcntl` unlock
that returns -1, `urq_update` returns `urqr_normal` after the release action
has run exactly once and has reported the failure, and the lock is still
held. -/
theorem release_can_leave_lock_held :
    (urq_update unlockFails.env (State.initial enterLine)).value
      = some urqresult.urqr_normal ∧
    unlocks (urq_update unlockFails.env (State.initial enterLine)).final.trace = 1 ∧
    (urq_update unlockFails.env (State.initial enterLine)).final.cleanups = [] ∧
    (urq_update unlockFails.env (State.initial enterLine)).final.lockHeld = true ∧
    reports (urq_update unlockFails.env (State.initial enterLine)).final.trace = 1 := by
  decide

/-- C2, amended: for every call of `urq_update`, `urq_install` or
`urq_setup` in which `ensureoptions` and `lockmethod` succeed, whenever the
operation returns, with whatever result, the release action has run exactly
once since the call began and the cleanup stack is as the call found it;
when the unlock did not fail the lock is free and the unlock attempt is the
last thing the operation did; when the unlock failed the lock is still held
and the last things the operation did are the attempt and the `sthfailed`
message `unable to unlock access method area`.  A subprocess run, however
it ends, sets the child signals up, spawns, and runs the child-signal
cleanup, and leaves the cleanup stack and the lock as it found them and runs
no unlock, so its `pop_cleanup` removes the child-signal cleanup and not the
release action. -/
theorem lock_released_exactly_once (env : Env) (s : State)
    (hens : (ensureoptions env s).1 = urqresult.urqr_normal)
    (hlock : (lockmethod env (ensureoptions env s).2).1 = urqresult.urqr_normal) :
    (∀ ur s1, urq_update env s = .ok (ur, s1) → ReleasedOnce env s s1) ∧
    (∀ ur s1, urq_install env s = .ok (ur, s1) → ReleasedOnce env s s1) ∧
    (∀ ur s1, urq_setup env s = .ok (ur, s1) → ReleasedOnce env s s1) ∧
    (∀ cmd sx, (falliblesubprocess env cmd sx).final.cleanups = sx.cleanups ∧
      unlocks (falliblesubprocess env cmd sx).final.trace = unlocks sx.trace ∧
      (falliblesubprocess env cmd sx).final.lockHeld = sx.lockHeld ∧
      ∃ t, (falliblesubprocess env cmd sx).final.trace
        = sx.trace ++ [Event.cursesOff, Event.signalsSetup cmd.name, Event.spawn cmd,
            Event.signalsCleanup] ++ t) := by
  refine ⟨fun ur s1 h => ?_, fun ur s1 h => ?_, fun ur s1 h => ?_, fun cmd sx => ?_⟩
  · exact (runscript_returns env _ _ s s1 ur hens hlock h).1
  · exact (runscript_returns env _ _ s s1 ur hens hlock h).1
  · exact (urq_setup_returns env s s1 ur hens hlock h).1
  · obtain ⟨_, _, f3, _, _, _, f7, _, _, f10, _⟩ := falliblesubprocess_frame env cmd sx
    refine ⟨f7, f10, f3, ?_⟩
    rcases falliblesubprocess_final env cmd sx with h | ⟨rest, h⟩
    · rw [h]
      exact ⟨[Event.sleep 1], rfl⟩
    · rw [h]
      refine ⟨(diagnostic env cmd.name (env.subprocStatus sx.clock cmd)).map
        Event.stderrText ++ [Event.flushStderr], ?_⟩
      simp [afterDiagnostic, runTrace]

/-- C2, amended, at a child that exits with code 3; the other outcomes
evaluated: no selection, exit 0, `SIGINT`, an unknown wait status, and a
menu that is not accepted each return with one unlock and the lock free;
and C2, amended, at an unlock that fails: the lock is still held and the
trace ends with the attempt and the report. -/
theorem lock_released_exactly_once_witness :
    ReleasedOnce (happy 768).env (State.initial enterLine)
      (urq_update (happy 768).env (State.initial enterLine)).final ∧
    ((urq_update noSelection.env (State.initial enterLine)).value
        = some urqresult.urqr_fail ∧
      unlocks (urq_update noSelection.env (State.initial enterLine)).final.trace = 1 ∧
      (urq_update noSelection.env (State.initial enterLine)).final.lockHeld = false) ∧
    ((urq_install (happy 0).env (State.initial enterLine)).value
        = some urqresult.urqr_normal ∧
      unlocks (urq_install (happy 0).env (State.initial enterLine)).final.trace = 1 ∧
      (urq_install (happy 0).env (State.initial enterLine)).final.lockHeld = false) ∧
    ((urq_update (happy 2).env (State.initial enterLine)).value
        = some urqresult.urqr_fail ∧
      unlocks (urq_update (happy 2).env (State.initial enterLine)).final.trace = 1 ∧
      (urq_update (happy 2).env (State.initial enterLine)).final.lockHeld = false) ∧
    ((urq_setup (happy 127).env (State.initial enterLine)).value
        = some urqresult.urqr_fail ∧
      unlocks (urq_setup (happy 127).env (State.initial enterLine)).final.trace = 1 ∧
      (urq_setup (happy 127).env (State.initial enterLine)).final.lockHeld = false) ∧
    ((urq_setup menuDeclined.env (State.initial enterLine)).value
        = some urqresult.urqr_fail ∧
      unlocks (urq_setup menuDeclined.env (State.initial enterLine)).final.trace = 1 ∧
      (urq_setup menuDeclined.env (State.initial enterLine)).final.lockHeld = false) ∧
    ((urq_update unlockFails.env (State.initial enterLine)).final.lockHeld = true ∧
      ∃ t, (urq_update unlockFails.env (State.initial enterLine)).final.trace
        = t ++ failedUnlock unlockFails.env
            (urq_update unlockFails.env (State.initial enterLine)).final.methlockfd) :=
  ⟨(lock_released_exactly_once (happy 768).env (State.initial enterLine)
      (by decide) (by decide)).1 urqresult.urqr_fail _ (by rfl),
    by decide, by decide, by decide, by decide, by decide,
    ((lock_released_exactly_once unlockFails.env (State.initial enterLine)
      (by decide) (by decide)).1 urqresult.urqr_normal _ (by rfl)).2.2.2 (by decide)⟩

/-! ## Failures and what the operator is told -/

theorem popAndReturn_outcome (env : Env) (ur : urqresult) (s sx : State)
    (h : Inside s sx) :
    spawned (popAndReturn env ur sx).final.trace = spawned sx.trace ∧
    persisted (popAndReturn env ur sx).final.trace = persisted sx.trace ∧
    menus (popAndReturn env ur sx).final.trace = menus sx.trace ∧
    (sx.methlockfd ≠ 0 → (popAndReturn env ur sx).value = some ur) ∧
    (sx.methlockfd = 0 →
      (popAndReturn env ur sx).failedAssertion = some "methlockfd") := by
  obtain ⟨h1, h2, _, _⟩ := h
  by_cases hd : sx.methlockfd = 0
  · rw [popAndReturn_assert env ur sx s.cleanups h1 h2 hd]
    exact ⟨rfl, rfl, rfl, fun hx => absurd hd hx, fun _ => rfl⟩
  · rw [popAndReturn_release env ur sx s.cleanups h1 h2 hd]
    obtain ⟨_, _, _, _, _, _, _, _, r9, r10, r11, _⟩ := released_frame env sx s.cleanups
    exact ⟨r9, r10, r11, fun _ => rfl, fun hx => absurd hx hd⟩

theorem resolved_frame (env : Env) (s : State)
    (hlock : (lockmethod env (ensureoptions env s).2).1 = urqresult.urqr_normal) :
    spawned (resolved env s).trace = spawned s.trace ∧
    persisted (resolved env s).trace = persisted s.trace ∧
    menus (resolved env s).trace = menus s.trace ∧
    (resolved env s).methlockfd = (locked env s).methlockfd := by
  obtain ⟨_, _, _, _, _, _, e7, e8, e9, _⟩ := ensureoptions_frame env s
  obtain ⟨_, _, _, _, _, _, _, l8, l9, l10, _⟩ := lockmethod_ok env _ hlock
  simp only [resolved, getcurrentopt, State.emit, State.tick, spawned_append,
    persisted_append, menus_append, locked]
  rw [l8, l9, l10, e7, e8, e9]
  simp [spawned, persisted, menus]

theorem setupMenu_frame (env : Env) (s : State)
    (hlock : (lockmethod env (ensureoptions env s).2).1 = urqresult.urqr_normal) :
    spawned (setupMenu env s).2.trace = spawned s.trace ∧
    persisted (setupMenu env s).2.trace = persisted s.trace ∧
    menus (setupMenu env s).2.trace = menus s.trace + 1 ∧
    (setupMenu env s).2.methlockfd = (locked env s).methlockfd := by
  obtain ⟨r1, r2, r3, r4⟩ := resolved_frame env s hlock
  simp only [setupMenu, display, State.emit, State.tick, spawned_append,
    persisted_append, menus_append]
  rw [r1, r2, r3, r4]
  simp [spawned, persisted, menus]

theorem runscript_precondition_failures (env : Env) (exepath name : String) (s : State) :
    ((ensureoptions env s).1 ≠ urqresult.urqr_normal →
      runscript env exepath name s = .ok (urqresult.urqr_fail, (ensureoptions env s).2) ∧
      spawned (ensureoptions env s).2.trace = spawned s.trace ∧
      lockAttempts (ensureoptions env s).2.trace = lockAttempts s.trace ∧
      (ensureoptions env s).2.cleanups = s.cleanups) ∧
    ((ensureoptions env s).1 = urqresult.urqr_normal →
      (lockmethod env (ensureoptions env s).2).1 ≠ urqresult.urqr_normal →
      runscript env exepath name s = .ok (urqresult.urqr_fail, locked env s) ∧
      spawned (locked env s).trace = spawned s.trace ∧
      (locked env s).cleanups = s.cleanups ∧
      ((ensureoptions env s).2.methlockfd = -1 →
        (afterOpen env (ensureoptions env s).2).methlockfd = -1 →
        lockAttempts (locked env s).trace = lockAttempts s.trace)) ∧
    ((ensureoptions env s).1 = urqresult.urqr_normal →
      (lockmethod env (ensureoptions env s).2).1 = urqresult.urqr_normal →
      (resolved env s).coption = none →
      spawned (runscript env exepath name s).final.trace = spawned s.trace ∧
      ((locked env s).methlockfd ≠ 0 →
        (runscript env exepath name s).value = some urqresult.urqr_fail) ∧
      ((locked env s).methlockfd = 0 →
        (runscript env exepath name s).failedAssertion = some "methlockfd")) := by
  obtain ⟨e1, _, _, _, _, _, e7, _, _, e10, _, e12⟩ := ensureoptions_frame env s
  refine ⟨fun hens => ?_, fun hens hlock => ?_, fun hens hlock hco => ?_⟩
  · refine ⟨?_, e7, e10, e1⟩
    obtain ⟨e13, _⟩ := e12 hens
    simp only [runscript, hens, ne_eq, not_false_eq_true, if_true]
    rw [← e13]
  · obtain ⟨l1, l2, _, l4, _, _, l7⟩ := lockmethod_fail env _ hlock
    refine ⟨?_, by rw [← e7]; exact l4, by rw [← e1]; exact l2, fun h1 h2 => ?_⟩
    · simp only [runscript, hens, hlock, ne_eq, not_true_eq_false, not_false_eq_true,
        if_true, if_false, locked]
      rw [← l1]
    · rw [← e10]
      exact l7 h1 h2
  · rw [runscript_unfold env exepath name s hens hlock]
    simp only [hco]
    have hI := inside_resolved env s (inside_locked env s hlock)
    obtain ⟨r1, _, _, r4⟩ := resolved_frame env s hlock
    have hI2 : Inside s (sthfailed env "no access method is selected/configured"
        (resolved env s)) := by
      refine inside_step s _ _ hI rfl rfl rfl ?_ ?_
      · simp [sthfailed, State.emit, unlocks_append]
        simp [unlocks]
      · simp [sthfailed, State.emit, reports_append]
    obtain ⟨p1, _, _, p4, p5⟩ := popAndReturn_outcome env urqresult.urqr_fail s _ hI2
    have hsp : spawned (sthfailed env "no access method is selected/configured"
        (resolved env s)).trace = spawned s.trace := by
      rw [← r1]
      simp [sthfailed, State.emit, spawned_append]
      simp [spawned]
    refine ⟨by rw [p1, hsp], fun hd => p4 ?_, fun hd => p5 ?_⟩
    · show (resolved env s).methlockfd ≠ 0
      rw [r4]
      exact hd
    · show (resolved env s).methlockfd = 0
      rw [r4]
      exact hd

theorem scriptCommand_spec (env : Env) (o : dselect_option) (exepath name : String) :
    (scriptCommand env o exepath name).2
      = { filename := strcpyAt o.meth.path o.meth.pathinmeth exepath.toList,
          name := name,
          argv := [exepath, env.admindir, o.meth.name, o.name] } ∧
    (o.meth.pathinmeth ≤ o.meth.path.length →
      (scriptCommand env o exepath name).2.filename
        = o.meth.path.take o.meth.pathinmeth ++ exepath.toList) := by
  constructor
  · rfl
  · intro h
    simp [scriptCommand, command_add_args, command_init, strcpyAt, h]

theorem runscript_runs_script (env : Env) (exepath name : String) (s : State)
    (o : dselect_option)
    (hens : (ensureoptions env s).1 = urqresult.urqr_normal)
    (hlock : (lockmethod env (ensureoptions env s).2).1 = urqresult.urqr_normal)
    (hco : (resolved env s).coption = some o) :
    spawned (runscript env exepath name s).final.trace
      = spawned s.trace ++ [(scriptCommand env o exepath name).2] ∧
    (∀ ur s2,
      falliblesubprocess env (scriptCommand env o exepath name).2
          { resolved env s with coption := some (scriptCommand env o exepath name).1 }
        = .ok (ur, s2) →
      ((locked env s).methlockfd ≠ 0 → (runscript env exepath name s).value = some ur) ∧
      ((locked env s).methlockfd = 0 →
        (runscript env exepath name s).failedAssertion = some "methlockfd")) := by
  rw [runscript_unfold env exepath name s hens hlock]
  simp only [hco]
  have hI := inside_resolved env s (inside_locked env s hlock)
  obtain ⟨r1, _, _, r4⟩ := resolved_frame env s hlock
  have hI2 : Inside s { resolved env s with
      coption := some (scriptCommand env o exepath name).1 } :=
    inside_step s _ _ hI rfl rfl rfl rfl (le_refl _)
  have hf := falliblesubprocess_frame env (scriptCommand env o exepath name).2
    { resolved env s with coption := some (scriptCommand env o exepath name).1 }
  cases hres : falliblesubprocess env (scriptCommand env o exepath name).2
      { resolved env s with coption := some (scriptCommand env o exepath name).1 } with
  | error h =>
    rw [hres] at hf
    obtain ⟨_, _, _, _, _, _, _, _, f9, _⟩ := hf
    refine ⟨?_, fun ur s2 hx => by cases hx⟩
    show spawned h.state.trace = _
    rw [← r1]
    exact f9
  | ok p =>
    obtain ⟨ur2, s2⟩ := p
    rw [hres] at hf
    obtain ⟨_, f2, _, _, _, _, _, _, f9, _⟩ := hf
    obtain ⟨hI3, _⟩ := falliblesubprocess_inside env _ s _ s2 ur2 hI2 hres
    obtain ⟨p1, _, _, p4, p5⟩ := popAndReturn_outcome env ur2 s s2 hI3
    have hfd : s2.methlockfd = (locked env s).methlockfd := by
      rw [← r4]
      exact f2
    refine ⟨?_, fun ur s3 hx => ?_⟩
    · show spawned (popAndReturn env ur2 s2).final.trace = _
      rw [p1, ← r1]
      exact f9
    · cases hx
      exact ⟨fun hd => p4 (by rw [hfd]; exact hd), fun hd => p5 (by rw [hfd]; exact hd)⟩

theorem urq_setup_declined (env : Env) (s : State)
    (hens : (ensureoptions env s).1 = urqresult.urqr_normal)
    (hlock : (lockmethod env (ensureoptions env s).2).1 = urqresult.urqr_normal)
    (hqa : (setupMenu env s).1 ≠ quitaction.qa_quitchecksave) :
    menus (urq_setup env s).final.trace = menus s.trace + 1 ∧
    spawned (urq_setup env s).final.trace = spawned s.trace ∧
    persisted (urq_setup env s).final.trace = persisted s.trace ∧
    ((locked env s).methlockfd ≠ 0 →
      (urq_setup env s).value = some urqresult.urqr_fail) ∧
    ((locked env s).methlockfd = 0 →
      (urq_setup env s).failedAssertion = some "methlockfd") := by
  rw [urq_setup_unfold env s hens hlock]
  simp only [hqa, if_false]
  have hI := inside_setupMenu env s (inside_resolved env s (inside_locked env s hlock))
  obtain ⟨m1, m2, m3, m4⟩ := setupMenu_frame env s hlock
  obtain ⟨p1, p2, p3, p4, p5⟩ := popAndReturn_outcome env urqresult.urqr_fail s _ hI
  exact ⟨by rw [p3, m3], by rw [p1, m1], by rw [p2, m2],
    fun hd => p4 (by rw [m4]; exact hd), fun hd => p5 (by rw [m4]; exact hd)⟩

theorem urq_setup_accepted (env : Env) (s : State) (o : dselect_option)
    (hens : (ensureoptions env s).1 = urqresult.urqr_normal)
    (hlock : (lockmethod env (ensureoptions env s).2).1 = urqresult.urqr_normal)
    (hqa : (setupMenu env s).1 = quitaction.qa_quitchecksave)
    (hco : (setupMenu env s).2.coption = some o) :
    menus (urq_setup env s).final.trace = menus s.trace + 1 ∧
    spawned (urq_setup env s).final.trace = spawned s.trace ++
      [(scriptCommand env o env.METHODSETUPSCRIPT "query/setup script").2] ∧
    (∀ ur s2,
      falliblesubprocess env
          (scriptCommand env o env.METHODSETUPSCRIPT "query/setup script").2
          { (setupMenu env s).2 with
            coption := some
              (scriptCommand env o env.METHODSETUPSCRIPT "query/setup script").1 }
        = .ok (ur, s2) →
      persisted (urq_setup env s).final.trace = persisted s.trace ++
        (if ur = urqresult.urqr_normal then
          [(scriptCommand env o env.METHODSETUPSCRIPT "query/setup script").1]
        else []) ∧
      ((locked env s).methlockfd ≠ 0 → (urq_setup env s).value = some ur) ∧
      ((locked env s).methlockfd = 0 →
        (urq_setup env s).failedAssertion = some "methlockfd")) := by
  rw [urq_setup_unfold env s hens hlock]
  simp only [hqa, if_true, hco]
  have hI := inside_setupMenu env s (inside_resolved env s (inside_locked env s hlock))
  obtain ⟨m1, m2, m3, m4⟩ := setupMenu_frame env s hlock
  have hI2 : Inside s { (setupMenu env s).2 with
      coption := some
        (scriptCommand env o env.METHODSETUPSCRIPT "query/setup script").1 } :=
    inside_step s _ _ hI rfl rfl rfl rfl (le_refl _)
  have hf := falliblesubprocess_frame env
    (scriptCommand env o env.METHODSETUPSCRIPT "query/setup script").2
    { (setupMenu env s).2 with
      coption := some (scriptCommand env o env.METHODSETUPSCRIPT "query/setup script").1 }
  cases hres : falliblesubprocess env
      (scriptCommand env o env.METHODSETUPSCRIPT "query/setup script").2
      { (setupMenu env s).2 with
        coption := some
          (scriptCommand env o env.METHODSETUPSCRIPT "query/setup script").1 } with
  | error h =>
    rw [hres] at hf
    obtain ⟨_, _, _, _, _, _, _, _, f9, _, _, _, f13, _⟩ := hf
    refine ⟨?_, ?_, fun ur s2 hx => by cases hx⟩
    · show menus h.state.trace = _
      rw [← m3]
      exact f13
    · show spawned h.state.trace = _
      rw [← m1]
      exact f9
  | ok p =>
    obtain ⟨ur2, s2⟩ := p
    rw [hres] at hf
    obtain ⟨_, f2, _, _, _, f6, _, _, f9, _, _, _, f13, f14⟩ := hf
    obtain ⟨hI3, _⟩ := falliblesubprocess_inside env _ s _ s2 ur2 hI2 hres
    have hf2 : s2.methlockfd = (locked env s).methlockfd := by
      rw [← m4]
      exact f2
    have hs9 : spawned s2.trace = spawned s.trace ++
        [(scriptCommand env o env.METHODSETUPSCRIPT "query/setup script").2] := by
      rw [← m1]
      exact f9
    have hs13 : menus s2.trace = menus s.trace + 1 := by
      rw [← m3]
      exact f13
    have hs14 : persisted s2.trace = persisted s.trace := by
      rw [← m2]
      exact f14
    have hs6 : s2.coption
        = some (scriptCommand env o env.METHODSETUPSCRIPT "query/setup script").1 := f6
    by_cases hn : ur2 = urqresult.urqr_normal
    · have hw : Inside s (writecurrentopt s2) := by
        obtain ⟨w1, w2, w3, w4, _, w6⟩ := writecurrentopt_frame s2
        exact inside_step s _ _ hI3 w1 w2 w6 w3 (le_of_eq w4.symm)
      obtain ⟨p1, p2, p3, p4, p5⟩ := popAndReturn_outcome env ur2 s _ hw
      have hwt : (writecurrentopt s2).trace = s2.trace ++ [Event.persistSelection
          (scriptCommand env o env.METHODSETUPSCRIPT "query/setup script").1] := by
        simp [writecurrentopt, hs6, State.emit]
      have hwf : (writecurrentopt s2).methlockfd = s2.methlockfd := by
        simp [writecurrentopt, hs6, State.emit]
      simp only [hn, if_true] at p1 p2 p3 p4 p5 ⊢
      refine ⟨?_, ?_, fun ur s3 hx => ?_⟩
      · rw [p3, hwt, menus_append, hs13]
        simp [menus]
      · rw [p1, hwt, spawned_append, hs9]
        simp [spawned]
      · cases hx
        refine ⟨?_, fun hd => p4 ?_, fun hd => p5 ?_⟩
        · rw [p2, hwt, persisted_append, hs14]
          simp [persisted]
        · rw [hwf, hf2]
          exact hd
        · rw [hwf, hf2]
          exact hd
    · obtain ⟨p1, p2, p3, p4, p5⟩ := popAndReturn_outcome env ur2 s _ hI3
      simp only [hn, if_false]
      refine ⟨by rw [p3, hs13], by rw [p1, hs9], fun ur s3 hx => ?_⟩
      cases hx
      refine ⟨?_, fun hd => p4 ?_, fun hd => p5 ?_⟩
      · rw [p2, hs14]
        simp [hn]
      · rw [hf2]
        exact hd
      · rw [hf2]
        exact hd

/-! ## The operations at descriptor 0 -/

/-- C3 fails on the code at descriptor 0: with the lock file opened on
descriptor 0 and no current selection, `urq_update` and `urq_install` spawn
nothing and report the missing selection, and then end in the failed
assertion of the release action instead of returning `urqr_fail`; on
descriptor 3 the same calls return `urqr_fail`. -/
theorem no_selection_aborts_at_descriptor_zero :
    (urq_update descriptorZeroNoSelection.env (State.initial enterLine)).value = none ∧
    (urq_update descriptorZeroNoSelection.env (State.initial enterLine)).failedAssertion
      = some "methlockfd" ∧
    (urq_install descriptorZeroNoSelection.env (State.initial enterLine)).failedAssertion
      = some "methlockfd" ∧
    spawned (urq_update descriptorZeroNoSelection.env
      (State.initial enterLine)).final.trace = [] ∧
    reports (urq_update descriptorZeroNoSelection.env
      (State.initial enterLine)).final.trace = 1 ∧
    (urq_update noSelection.env (State.initial enterLine)).value
      = some urqresult.urqr_fail ∧
    (urq_install noSelection.env (State.initial enterLine)).value
      = some urqresult.urqr_fail := by
  decide

/-- C4 fails on the code at descriptor 0: with the lock file opened on
descriptor 0, `urq_update` runs the one command with the arguments (update
script, admindir, method name, option name), the child exits with 0, and the
operation ends in the failed assertion of the release action, so it has no
result; on descriptor 3 the same call returns `urqr_normal`. -/
theorem update_result_lost_at_descriptor_zero :
    spawned (urq_update descriptorZero.env (State.initial enterLine)).final.trace
      = [{ filename := "/usr/lib/dpkg/methods/mymethod/update".toList,
           name := "update available list script",
           argv := ["update", "/var/lib/dpkg", "mymethod", "myoption"] }] ∧
    (urq_update descriptorZero.env (State.initial enterLine)).value = none ∧
    (urq_update descriptorZero.env (State.initial enterLine)).failedAssertion
      = some "methlockfd" ∧
    (urq_install descriptorZero.env (State.initial enterLine)).failedAssertion
      = some "methlockfd" ∧
    (urq_update (happy 0).env (State.initial enterLine)).value
      = some urqresult.urqr_normal := by
  decide

/-- C6 fails on the code at descriptor 0: with the lock file opened on
descriptor 0 and a menu that is not accepted, `urq_setup` presents the menu,
runs no script and persists nothing, and then ends in the failed assertion
of the release action instead of returning `urqr_fail`; on descriptor 3 the
same call returns `urqr_fail`. -/
theorem setup_declined_aborts_at_descriptor_zero :
    (urq_setup descriptorZeroDeclined.env (State.initial enterLine)).value = none ∧
    (urq_setup descriptorZeroDeclined.env (State.initial enterLine)).failedAssertion
      = some "methlockfd" ∧
    menus (urq_setup descriptorZeroDeclined.env (State.initial enterLine)).final.trace
      = 1 ∧
    spawned (urq_setup descriptorZeroDeclined.env (State.initial enterLine)).final.trace
      = [] ∧
    persisted (urq_setup descriptorZeroDeclined.env
      (State.initial enterLine)).final.trace = [] ∧
    (urq_setup menuDeclined.env (State.initial enterLine)).value
      = some urqresult.urqr_fail := by
  decide

end Dselect
